import Mathlib

/-!
velero-plugin-scaleway: a shallow embedding of the volume snapshotter and the client builder.

Go strings are modelled by Lean strings, Go slices by lists, a nil-able pointer by `Option`.
A Go `error` result is an `Option` of an error value (`none` is the nil error).
Code of the imported SDKs (scaleway-sdk-go, smithy-go, apimachinery) is not part of the
repository; what the plugin calls of it is taken as a parameter.
-/

namespace VeleroScaleway

/-! ## Ambient environment -/

/-- The process environment as `os.LookupEnv` sees it: `none` for an unset variable. -/
abbrev Environ := String → Option String

/-- Go `os.Getenv`: the value of the variable, the empty string when it is unset. -/
def Getenv (env : Environ) (key : String) : String :=
  (env key).getD ""

/-- Go `strings.HasPrefix(s, p)`. -/
def HasPrefix (s p : String) : Bool :=
  p.data.isPrefixOf s.data

/-! ## Tags (volume_snapshotter.go, lines 155-229) -/

/-- Go `type tags []string`. -/
abbrev tags := List String

/-- The loop of `tags.unique`: `uniqueTagsMap` is the map of tags already seen (a missing key
reads as `false`), `uniqueTags` the slice built so far. -/
def uniqueLoop : List String → (String → Bool) → List String → List String
  | [], _, uniqueTags => uniqueTags
  | tag :: rest, uniqueTagsMap, uniqueTags =>
    if !uniqueTagsMap tag then
      uniqueLoop rest (fun k => if k = tag then true else uniqueTagsMap k) (uniqueTags ++ [tag])
    else
      uniqueLoop rest uniqueTagsMap uniqueTags

/-- Go `func (t tags) unique() []string`. -/
def tags.unique (t : tags) : List String :=
  uniqueLoop t (fun _ => false) []

/-- Go `func (t tags) merge(other tags) []string`. -/
def tags.merge (t other : tags) : List String :=
  let merged := t ++ other
  tags.unique merged

/-- Go `func toTags(strSlice []string) tags`. -/
def toTags (strSlice : List String) : tags := strSlice

/-- The copy loop of `getTagsForCluster`. -/
def clusterTagsLoop (haveSCWClusterNameEnvVar : Bool) : List String → List String → List String
  | [], result => result
  | tag :: rest, result =>
    if haveSCWClusterNameEnvVar &&
        (HasPrefix tag "kubernetes.io/cluster/" || tag == "KubernetesCluster") then
      clusterTagsLoop haveSCWClusterNameEnvVar rest result
    else
      clusterTagsLoop haveSCWClusterNameEnvVar rest (result ++ [tag])

/-- Go `func getTagsForCluster(snapshotTags []string) []string`, reading `SCW_CLUSTER_NAME`
from the environment. -/
def getTagsForCluster (env : Environ) (snapshotTags : List String) : List String :=
  let lookup := env "SCW_CLUSTER_NAME"
  let clusterName := lookup.getD ""
  let haveSCWClusterNameEnvVar := lookup.isSome
  let result : List String :=
    if haveSCWClusterNameEnvVar then
      [("kubernetes.io/cluster/" ++ clusterName) ++ ":" ++ "owned",
       "KubernetesCluster" ++ ":" ++ clusterName]
    else []
  clusterTagsLoop haveSCWClusterNameEnvVar snapshotTags result

/-- An environment in which only `SCW_CLUSTER_NAME` is set, to `c`. -/
def clusterEnv (c : String) : Environ :=
  fun k => if k = "SCW_CLUSTER_NAME" then some c else none

/-- In the words of the specification: the subsequence of a tag list that keeps a tag exactly
at the positions where it does not occur among the `earlier` tags or further left. -/
def keepFirstOccurrences : List String → List String → List String
  | _, [] => []
  | earlier, x :: xs =>
    if x ∈ earlier then keepFirstOccurrences (earlier ++ [x]) xs
    else x :: keepFirstOccurrences (earlier ++ [x]) xs

/-- In the words of the specification: a cluster-ownership tag, in either key form. -/
def isOwnershipTag (tag : String) : Bool :=
  HasPrefix tag "kubernetes.io/cluster/" || HasPrefix tag "KubernetesCluster:"

/-! ## Errors -/

/-- An error value produced by an imported library (the Scaleway SDK, the unstructured
converter). The plugin inspects such a value only through `errors.As`; the two fields record
what those two inspections find in the error chain. -/
structure LibError where
  /-- The text of `Error()`. -/
  text : String
  /-- The `ErrorCode()` of the `smithy.APIError` that `errors.As` finds, if there is one. -/
  apiErrorCode : Option String
  /-- Whether `errors.As` finds a `*scw.ConfigFileNotFoundError`. -/
  isConfigFileNotFound : Bool
  deriving DecidableEq, Repr

/-- Go `type ClientSCWError struct` (errors.go); `Err` is kept by its text. -/
structure ClientSCWError where
  Err : String
  Details : String
  deriving DecidableEq, Repr

/-- The error values the plugin returns. -/
inductive GoError where
  /-- A library error handed on unchanged (`return nil, err`). -/
  | lib (err : LibError)
  /-- Go `errors.WithStack(err)`. -/
  | withStack (err : GoError)
  /-- Go `errors.New`, `errors.Errorf` and `fmt.Errorf`, by the formatted text. -/
  | text (msg : String)
  /-- A `*ClientSCWError`. -/
  | clientSCW (err : ClientSCWError)
  deriving DecidableEq, Repr

/-- The outcome of running a Go function: it returns its results, or the goroutine panics
(nil dereference, slice bound out of range). -/
inductive Run (α : Type) where
  | ret (results : α)
  | panic
  deriving DecidableEq, Repr

/-! ## The remote block-storage API (scaleway-sdk-go, block/v1alpha1) -/

/-- The fields of `block.Snapshot` the plugin reads. -/
structure Snapshot where
  ID : String
  Name : String
  Zone : String
  Tags : List String
  deriving DecidableEq, Repr

/-- The fields of `block.VolumeSpecifications` the plugin reads; `PerfIops` is a `*uint32`. -/
structure VolumeSpecifications where
  PerfIops : Option Nat
  deriving DecidableEq, Repr

/-- The fields of `block.Volume` the plugin reads; `Specs` is a pointer, `Type_` is the Go
field `Type`. -/
structure Volume where
  ID : String
  Name : String
  Type_ : String
  Zone : String
  Tags : List String
  Specs : Option VolumeSpecifications
  deriving DecidableEq, Repr

/-- Go `block.Volume{}`, the zero value. -/
def Volume.zero : Volume :=
  { ID := "", Name := "", Type_ := "", Zone := "", Tags := [], Specs := none }

/-- The fields of `block.GetSnapshotRequest` the plugin sets. -/
structure GetSnapshotRequest where
  Zone : String
  SnapshotID : String
  deriving DecidableEq, Repr

/-- The fields of `block.CreateVolumeRequest` the plugin sets; `FromSnapshot` is given by the
snapshot ID inside it, `PerfIops` is a `*uint32`, `Tags` is nil (the empty list) when unset. -/
structure CreateVolumeRequest where
  FromSnapshot : String
  Zone : String
  PerfIops : Option Nat
  Tags : List String
  deriving DecidableEq, Repr

/-- The fields of `block.GetVolumeRequest` the plugin sets. -/
structure GetVolumeRequest where
  VolumeID : String
  deriving DecidableEq, Repr

/-- The fields of `block.CreateSnapshotRequest` the plugin sets. -/
structure CreateSnapshotRequest where
  VolumeID : String
  Tags : List String
  Zone : String
  Name : String
  deriving DecidableEq, Repr

/-- The fields of `block.DeleteSnapshotRequest` the plugin sets. -/
structure DeleteSnapshotRequest where
  SnapshotID : String
  deriving DecidableEq, Repr

/-- The remote calls of `block.API` the plugin makes, as the remote side answers them. A call
that returns a pointer answers `Except.ok none` for a nil pointer with a nil error. -/
structure BlockAPI where
  GetSnapshot : GetSnapshotRequest → Except LibError (Option Snapshot)
  CreateVolume : CreateVolumeRequest → Except LibError (Option Volume)
  GetVolume : GetVolumeRequest → Except LibError (Option Volume)
  CreateSnapshot : CreateSnapshotRequest → Except LibError (Option Snapshot)
  DeleteSnapshot : DeleteSnapshotRequest → Option LibError

/-! ## Volume and snapshot lifecycle (volume_snapshotter.go) -/

/-- Go `func (s *VolumeSnapshotter) CreateVolumeFromSnapshot(snapshotID, volumeAZ string,
iops uint32) (volumeID string, err error)`. -/
def CreateVolumeFromSnapshot (api : BlockAPI) (env : Environ) (snapshotID volumeAZ : String)
    (iops : Nat) : Run (String × Option GoError) :=
  match api.GetSnapshot { Zone := volumeAZ, SnapshotID := snapshotID } with
  | .error err => .ret ("", some (.withStack (.lib err)))
  | .ok getSnapOutput =>
    if getSnapOutput ≠ none then
      .ret ("", some (.text ("expected snapshot from GetSnapshot for " ++ snapshotID)))
    else
      let input : CreateVolumeRequest :=
        { FromSnapshot := snapshotID, Zone := volumeAZ, PerfIops := some iops, Tags := [] }
      -- `getSnapOutput.Tags` dereferences the pointer
      match getSnapOutput with
      | none => .panic
      | some snap =>
        let input :=
          if snap.Tags.length > 0 then { input with Tags := getTagsForCluster env snap.Tags }
          else input
        match api.CreateVolume input with
        | .error err => .ret ("", some (.withStack (.lib err)))
        | .ok none => .panic
        | .ok (some output) => .ret (output.ID, none)

/-- Go `func (s *VolumeSnapshotter) describeVolume(volumeID string) (block.Volume, error)`. -/
def describeVolume (api : BlockAPI) (volumeID : String) : Volume × Option GoError :=
  match api.GetVolume { VolumeID := volumeID } with
  | .error err => (Volume.zero, some (.withStack (.lib err)))
  | .ok none =>
    (Volume.zero,
      some (.text ("Expected one volume from DescribeVolumes for volume ID " ++ volumeID)))
  | .ok (some output) => (output, none)

/-- Go `func (s *VolumeSnapshotter) CreateSnapshot(volumeID, snapshotName string,
tags []string) (string, error)`. -/
def CreateSnapshot (api : BlockAPI) (volumeID snapshotName : String) (extraTags : List String) :
    Run (String × Option GoError) :=
  match describeVolume api volumeID with
  | (_, some err) => .ret ("", some err)
  | (volumeInfo, none) =>
    let tagsFromVolume := toTags volumeInfo.Tags
    let tagsMerged := tags.merge tagsFromVolume extraTags
    let input : CreateSnapshotRequest :=
      { VolumeID := volumeInfo.ID
        Tags := tagsMerged
        Zone := volumeInfo.Zone
        Name := "vol-" ++ volumeInfo.Name ++ "-snap-" ++ snapshotName }
    match api.CreateSnapshot input with
    | .error err => .ret ("", some (.withStack (.lib err)))
    | .ok none => .panic
    | .ok (some res) => .ret (res.ID, none)

/-- Go `func (s *VolumeSnapshotter) DeleteSnapshot(snapshotID string) error`. -/
def DeleteSnapshot (api : BlockAPI) (snapshotID : String) : Option GoError :=
  let input : DeleteSnapshotRequest := { SnapshotID := snapshotID }
  let err := api.DeleteSnapshot input
  -- `errors.As(err, &apiErr)` and then `apiErr.ErrorCode()`
  if (err.bind LibError.apiErrorCode) = some "InvalidSnapshot.NotFound" then
    none
  else
    match err with
    | some e => some (.withStack (.lib e))
    | none => none

/-! ## Persistent-volume documents (volume_snapshotter.go, lines 256-297) -/

/-- Go `const sbsCSIDriver`. -/
def sbsCSIDriver : String := "sbs-default.csi.scaleway.com"

/-- The fields of `v1.CSIPersistentVolumeSource` that the plugin and its tests touch. -/
structure CSIPersistentVolumeSource where
  Driver : String
  VolumeHandle : String
  FSType : String
  deriving DecidableEq, Repr

/-- Go `v1.PersistentVolumeSpec`, reduced to its `CSI` pointer. -/
structure PersistentVolumeSpec where
  CSI : Option CSIPersistentVolumeSource
  deriving DecidableEq, Repr

/-- Go `v1.PersistentVolume`, reduced to its `Spec`. -/
structure PersistentVolume where
  Spec : PersistentVolumeSpec
  deriving DecidableEq, Repr

/-- Go `runtime.DefaultUnstructuredConverter`, over documents of type `Doc`
(the content of a `runtime.Unstructured`). -/
structure UnstructuredConverter (Doc : Type) where
  FromUnstructured : Doc → Except LibError PersistentVolume
  ToUnstructured : PersistentVolume → Except LibError Doc

/-- A character class of the regular expressions used here: one literal character, or `.`,
which in Go (RE2 syntax, flag `s` off) is any character except the line feed. -/
inductive CharClass where
  | lit (c : Char)
  | dot
  deriving DecidableEq, Repr

/-- Whether a character belongs to a class. -/
def CharClass.accepts : CharClass → Char → Bool
  | .lit c, x => x == c
  | .dot, x => x != '\n'

/-- One item of a pattern: a class, or a greedily starred class. -/
inductive RegexNode where
  | one (k : CharClass)
  | star (k : CharClass)
  deriving DecidableEq, Repr

/-- The class a pattern character stands for. -/
def classOf (c : Char) : CharClass :=
  if c = '.' then .dot else .lit c

/-- Go `regexp.MustCompile`, for patterns made of literal characters, `.` and `*` after a
character: the fragment the pattern `vol-.*` lies in. -/
def compilePattern : List Char → List RegexNode
  | [] => []
  | [c] => [.one (classOf c)]
  | c :: d :: rest =>
    if d = '*' then .star (classOf c) :: compilePattern rest
    else .one (classOf c) :: compilePattern (d :: rest)

/-- A greedy star followed by the rest of the pattern `cont`: take as many characters of the
class as possible, and give one back at a time while the rest does not match. -/
def starLoop (k : CharClass) (cont : List Char → Option (List Char)) :
    List Char → Option (List Char)
  | [] => cont []
  | c :: cs =>
    if k.accepts c then
      match starLoop k cont cs with
      | some m => some (c :: m)
      | none => cont (c :: cs)
    else cont (c :: cs)

/-- The text a pattern matches at the start of the input, as a backtracking search finds it
first (the match Go's `regexp` reports), or `none` when it does not match there. -/
def matchHere : List RegexNode → List Char → Option (List Char)
  | [], _ => some []
  | .one k :: r, cs =>
    match cs with
    | [] => none
    | c :: cs => if k.accepts c then (matchHere r cs).map (c :: ·) else none
  | .star k :: r, cs => starLoop k (matchHere r) cs

/-- The leftmost match of a pattern in the input. -/
def findFirst (re : List RegexNode) : List Char → Option (List Char)
  | [] => matchHere re []
  | c :: cs =>
    match matchHere re (c :: cs) with
    | some m => some m
    | none => findFirst re cs

/-- Go `(*Regexp).FindString`: the text of the leftmost match, the empty string when there is
none. -/
def FindString (re : List RegexNode) (s : String) : String :=
  String.mk ((findFirst re s.data).getD [])

/-- Go `var ebsVolumeIDRegex = regexp.MustCompile("vol-.*")`. -/
def ebsVolumeIDRegex : List RegexNode := compilePattern "vol-.*".data

/-- Go `func (s *VolumeSnapshotter) GetVolumeID(unstructuredPV runtime.Unstructured)
(string, error)`. -/
def GetVolumeID {Doc : Type} (conv : UnstructuredConverter Doc) (unstructuredPV : Doc) :
    String × Option GoError :=
  match conv.FromUnstructured unstructuredPV with
  | .error err => ("", some (.withStack (.lib err)))
  | .ok pv =>
    match pv.Spec.CSI with
    | some csi =>
      let driver := csi.Driver
      if driver = sbsCSIDriver then
        (FindString ebsVolumeIDRegex csi.VolumeHandle, none)
      else ("", none)
    | none => ("", none)

/-- Go `func (s *VolumeSnapshotter) SetVolumeID(unstructuredPV runtime.Unstructured,
volumeID string) (runtime.Unstructured, error)`. -/
def SetVolumeID {Doc : Type} (conv : UnstructuredConverter Doc) (unstructuredPV : Doc)
    (volumeID : String) : Option Doc × Option GoError :=
  match conv.FromUnstructured unstructuredPV with
  | .error err => (none, some (.withStack (.lib err)))
  | .ok pv =>
    match pv.Spec.CSI with
    | some csi =>
      let driver := csi.Driver
      if driver = sbsCSIDriver then
        let pv : PersistentVolume := { Spec := { CSI := some { csi with VolumeHandle := volumeID } } }
        match conv.ToUnstructured pv with
        | .error err => (none, some (.withStack (.lib err)))
        | .ok res => (some res, none)
      else (none, some (.text ("unable to handle CSI driver: " ++ driver)))
    | none => (none, some (.text "spec.csi not found"))

/-- In the words of the specification: the part of a text from the first occurrence of `pat`
to the end of the text, empty when `pat` does not occur. -/
def fromFirstOccurrence (pat : List Char) : List Char → List Char
  | [] => []
  | c :: cs => if pat.isPrefixOf (c :: cs) then c :: cs else fromFirstOccurrence pat cs

/-- A document as the tests build it: nested string-keyed maps with string leaves. -/
inductive DocValue where
  | str (s : String)
  | obj (fields : List (String × DocValue))

/-- The content of an `unstructured.Unstructured`: Go `map[string]interface{}`. -/
abbrev Document := List (String × DocValue)

/-- Reading a string field of a map: a missing key is the empty string, an object in its
place is a conversion error. -/
def readString (m : Document) (key : String) : Except LibError String :=
  match m.lookup key with
  | none => .ok ""
  | some (.str s) => .ok s
  | some (.obj _) =>
    .error { text := "cannot read " ++ key, apiErrorCode := none, isConfigFileNotFound := false }

/-- Reading an object field of a map: a missing key is a nil pointer, a string in its place
is a conversion error. -/
def readObject (m : Document) (key : String) : Except LibError (Option Document) :=
  match m.lookup key with
  | none => .ok none
  | some (.obj fields) => .ok (some fields)
  | some (.str _) =>
    .error { text := "cannot read " ++ key, apiErrorCode := none, isConfigFileNotFound := false }

/-- A reference converter over `Document`, covering the path `spec.csi` with the JSON names of
the Kubernetes types (`driver`, `volumeHandle`, and `fsType` with `omitempty`). It stands in
for `runtime.DefaultUnstructuredConverter` in concrete runs. -/
def documentConverter : UnstructuredConverter Document where
  FromUnstructured := fun doc =>
    match readObject doc "spec" with
    | .error e => .error e
    | .ok none => .ok { Spec := { CSI := none } }
    | .ok (some spec) =>
      match readObject spec "csi" with
      | .error e => .error e
      | .ok none => .ok { Spec := { CSI := none } }
      | .ok (some csi) =>
        match readString csi "driver", readString csi "volumeHandle", readString csi "fsType" with
        | .ok d, .ok h, .ok f =>
          .ok { Spec := { CSI := some { Driver := d, VolumeHandle := h, FSType := f } } }
        | .error e, _, _ => .error e
        | _, .error e, _ => .error e
        | _, _, .error e => .error e
  ToUnstructured := fun pv =>
    match pv.Spec.CSI with
    | none => .ok [("spec", .obj [])]
    | some csi =>
      .ok [("spec", .obj [("csi", .obj
        ([("driver", .str csi.Driver), ("volumeHandle", .str csi.VolumeHandle)] ++
          (if csi.FSType = "" then [] else [("fsType", .str csi.FSType)])))])]

/-- The document of the tests: `spec.csi` with the given driver, `fsType` ext4 and the given
volume handle. -/
def testDocument (driver handle : String) : Document :=
  [("spec", .obj [("csi", .obj
    [("driver", .str driver), ("fsType", .str "ext4"), ("volumeHandle", .str handle)])])]

/-! ## Client configuration (client.go, errors.go, config.go) -/

/-- Go `const userAgentPrefix` (config.go). -/
def userAgentPrefix : String := "velero-plugin-scaleway"

/-- The fields of `scw.Profile` the plugin reads; each is a `*string`. -/
structure Profile where
  AccessKey : Option String
  SecretKey : Option String
  DefaultOrganizationID : Option String
  DefaultZone : Option String
  DefaultRegion : Option String
  deriving DecidableEq, Repr

/-- A `*scw.Client` as `validateClient` sees it: the first result of `GetAccessKey`,
`GetSecretKey`, `GetDefaultOrganizationID`, `GetDefaultZone` and `GetDefaultRegion`. -/
structure Client where
  AccessKey : String
  SecretKey : String
  DefaultOrganizationID : String
  DefaultZone : String
  DefaultRegion : String
  deriving DecidableEq, Repr

/-- The `scw.ClientOption` values the plugin creates, by the SDK function that creates them. -/
inductive ClientOption where
  | WithEnv
  | WithUserAgent (userAgent : String)
  | WithDefaultRegion (region : String)
  | WithProfile (p : Profile)
  deriving DecidableEq, Repr

/-- A loaded `*scw.Config`, by its method `GetProfile`. -/
structure Config where
  GetProfile : String → Except LibError Profile

/-- What the plugin calls of the imported libraries, as they answer in the current process
(environment and file system fixed). -/
structure SDK where
  /-- Go `validation.IsAccessKey`. -/
  IsAccessKey : String → Bool
  /-- Go `validation.IsSecretKey`. -/
  IsSecretKey : String → Bool
  /-- Go `validation.IsOrganizationID`. -/
  IsOrganizationID : String → Bool
  /-- Go `validation.IsZone`. -/
  IsZone : String → Bool
  /-- Go `validation.IsRegion`. -/
  IsRegion : String → Bool
  /-- Go `scw.AllZones`. -/
  AllZones : List String
  /-- Go `scw.AllRegions`. -/
  AllRegions : List String
  /-- Go `scw.GetConfigPath()`. -/
  GetConfigPath : String
  /-- Go `scw.LoadEnvProfile()`. -/
  LoadEnvProfile : Profile
  /-- Go `scw.LoadConfigFromPath`. -/
  LoadConfigFromPath : String → Except LibError Config
  /-- Go `scw.MergeProfiles(original, other)`. -/
  MergeProfiles : Profile → Profile → Profile
  /-- Go `scw.NewClient(opts...)`. -/
  NewClient : List ClientOption → Except LibError Client
  /-- Go `veleroplugin.ValidateVolumeSnapshotterConfigKeys(config, validKeys...)`. -/
  ValidateVolumeSnapshotterConfigKeys : List (String × String) → List String → Option LibError

/-- Go `func configErrorDetails(configKey, varEnv string) string` (errors.go). -/
def configErrorDetails (sdk : SDK) (configKey varEnv : String) : String :=
  configKey ++ " can be initialised using the command \"scw init\".\n\n" ++
  "After initialisation, there are three ways to provide " ++ configKey ++ ":\n" ++
  "- with the Scaleway config file, in the " ++ configKey ++ " key: " ++ sdk.GetConfigPath ++
  ";\n" ++
  "- with the " ++ varEnv ++ " environement variable;\n\n" ++
  "Note that the last method has the highest priority.\n\n" ++
  "More info: https://github.com/scaleway/scaleway-sdk-go/tree/master/scw#scaleway-config"

/-- Go `func validateClient(client *scw.Client) error`. -/
def validateClient (sdk : SDK) (client : Client) : Option ClientSCWError :=
  let accessKey := client.AccessKey
  if accessKey = "" then
    some { Err := "access key is required"
           Details := configErrorDetails sdk "access_key" "SCW_ACCESS_KEY" }
  else if !sdk.IsAccessKey accessKey then
    some { Err := "invalid access key format '" ++ accessKey ++
             "', expected SCWXXXXXXXXXXXXXXXXX format"
           Details := "" }
  else
  let secretKey := client.SecretKey
  if secretKey = "" then
    some { Err := "secret key is required"
           Details := configErrorDetails sdk "secret_key" "SCW_SECRET_KEY" }
  else if !sdk.IsSecretKey secretKey then
    some { Err := "invalid secret key format '" ++ secretKey ++
             "', expected a UUID: xxxxxxxx-xxxx-xxxx-xxxx-xxxxxxxxxxxx"
           Details := "" }
  else
  let defaultOrganizationID := client.DefaultOrganizationID
  if defaultOrganizationID = "" then
    some { Err := "organization ID is required"
           Details := configErrorDetails sdk "default_organization_id"
             "SCW_DEFAULT_ORGANIZATION_ID" }
  else if !sdk.IsOrganizationID defaultOrganizationID then
    some { Err := "invalid organization ID format '" ++ defaultOrganizationID ++
             "', expected a UUID: xxxxxxxx-xxxx-xxxx-xxxx-xxxxxxxxxxxx"
           Details := "" }
  else
  let defaultZone := client.DefaultZone
  if defaultZone = "" then
    some { Err := "default zone is required"
           Details := configErrorDetails sdk "default_zone" "SCW_DEFAULT_ZONE" }
  else if !sdk.IsZone defaultZone then
    let zones := sdk.AllZones
    some { Err := "invalid default zone format '" ++ defaultZone ++
             "', available zones are: " ++ ", ".intercalate zones
           Details := "" }
  else
  let defaultRegion := client.DefaultRegion
  if defaultRegion = "" then
    some { Err := "default region is required"
           Details := configErrorDetails sdk "default_region" "SCW_DEFAULT_REGION" }
  else if !sdk.IsRegion defaultRegion then
    let regions := sdk.AllRegions
    some { Err := "invalid default region format '" ++ defaultRegion ++
             "', available regions are: " ++ ", ".intercalate regions
           Details := "" }
  else none

/-- Go `type clientBuilder struct`, without its logger. -/
structure clientBuilder where
  opts : List ClientOption
  deriving DecidableEq, Repr

/-- Go `func newClientBuilder(logger logrus.FieldLogger) *clientBuilder`. -/
def newClientBuilder : clientBuilder := { opts := [] }

/-- Go `func (c *clientBuilder) WithEnvProfile() *clientBuilder`. -/
def clientBuilder.WithEnvProfile (c : clientBuilder) : clientBuilder :=
  { opts := c.opts ++ [.WithEnv] }

/-- Go `func (c *clientBuilder) WithUserAgent(userAgent string) *clientBuilder`. -/
def clientBuilder.WithUserAgent (c : clientBuilder) (userAgent : String) : clientBuilder :=
  { opts := c.opts ++ [.WithUserAgent userAgent] }

/-- Go `func (c *clientBuilder) WithRegion(region string) *clientBuilder`. -/
def clientBuilder.WithRegion (c : clientBuilder) (region : String) : clientBuilder :=
  { opts := c.opts ++ [.WithDefaultRegion region] }

/-- Go `s[:n]` for `n ≤ len(s)`, which counts and cuts bytes of the UTF-8 text. A cut inside
a multi-byte character leaves an ill-formed tail; it is rendered as one U+FFFD, the way Go
itself decodes such bytes. -/
def sliceTo : List Char → Nat → List Char
  | [], _ => []
  | c :: cs, n =>
    if n = 0 then []
    else if c.utf8Size ≤ n then c :: sliceTo cs (n - c.utf8Size)
    else [Char.ofNat 0xFFFD]

/-- Lines 83-95 of `Build`: a profile with a zone and no region gets the region guessed from
the zone. `zone[:len(zone)-2]` panics when the zone is shorter than two bytes. -/
def zoneToRegion (sdk : SDK) (profile : Profile) : Run Profile :=
  if profile.DefaultZone ≠ none ∧ profile.DefaultZone ≠ some "" ∧
      (profile.DefaultRegion = none ∨ profile.DefaultRegion = some "") then
    let zone := profile.DefaultZone.getD ""
    if zone.utf8ByteSize < 2 then .panic
    else
      let region := String.mk (sliceTo zone.data (zone.utf8ByteSize - 2))
      if sdk.IsRegion region then .ret { profile with DefaultRegion := some region }
      else .ret profile
  else .ret profile

/-- Lines 45-81 of `Build`: the environment profile, and the `switch` on the outcome of loading
the config file. It yields the working profile, or the error `Build` returns at once. -/
def loadProfile (sdk : SDK) (configPath profileName : String) : Except GoError Profile :=
  let profile := sdk.LoadEnvProfile
  match sdk.LoadConfigFromPath configPath with
  | .error err =>
    if err.isConfigFileNotFound then .ok profile
    else .error (.lib err)
  | .ok configFromPath =>
    match configFromPath.GetProfile profileName with
    | .error err => .error (.lib err)
    | .ok activeProfile =>
      let opts := [ClientOption.WithProfile activeProfile]
      match sdk.NewClient opts with
      | .error err => .error (.lib err)
      | .ok _ => .ok (sdk.MergeProfiles activeProfile profile)

/-- Go `func (c *clientBuilder) Build(configPath string, profileName string)
(*scw.Client, error)`. -/
def clientBuilder.Build (sdk : SDK) (c : clientBuilder) (configPath profileName : String) :
    Run (Option Client × Option GoError) :=
  match loadProfile sdk configPath profileName with
  | .error err => .ret (none, some err)
  | .ok profile =>
    match zoneToRegion sdk profile with
    | .panic => .panic
    | .ret _ =>
      match sdk.NewClient c.opts with
      | .error err => .ret (none, some (.lib err))
      | .ok client => .ret (some client, (validateClient sdk client).map GoError.clientSCW)

/-- The five mandatory settings, in the order `validateClient` checks them. -/
inductive Field where
  | accessKey
  | secretKey
  | organizationID
  | zone
  | region
  deriving DecidableEq, Repr

/-- The check order named by the specification. -/
def Field.checkOrder : List Field :=
  [.accessKey, .secretKey, .organizationID, .zone, .region]

/-- The value a client holds for a field. -/
def Field.value (client : Client) : Field → String
  | .accessKey => client.AccessKey
  | .secretKey => client.SecretKey
  | .organizationID => client.DefaultOrganizationID
  | .zone => client.DefaultZone
  | .region => client.DefaultRegion

/-- The format predicate of a field. -/
def Field.wellFormed (sdk : SDK) : Field → String → Bool
  | .accessKey => sdk.IsAccessKey
  | .secretKey => sdk.IsSecretKey
  | .organizationID => sdk.IsOrganizationID
  | .zone => sdk.IsZone
  | .region => sdk.IsRegion

/-- A field of a client is valid: non-empty and of the right format. -/
def Field.valid (sdk : SDK) (client : Client) (f : Field) : Bool :=
  f.value client != "" && f.wellFormed sdk (f.value client)

/-- In the words of the specification: the first offending field in the fixed check order. -/
def firstOffending (sdk : SDK) (client : Client) : Option Field :=
  Field.checkOrder.find? (fun f => !f.valid sdk client)

/-- The "required" error of a field: its message, with the remediation text for its config key
and environment variable. -/
def requiredError (sdk : SDK) : Field → ClientSCWError
  | .accessKey =>
    { Err := "access key is required"
      Details := configErrorDetails sdk "access_key" "SCW_ACCESS_KEY" }
  | .secretKey =>
    { Err := "secret key is required"
      Details := configErrorDetails sdk "secret_key" "SCW_SECRET_KEY" }
  | .organizationID =>
    { Err := "organization ID is required"
      Details := configErrorDetails sdk "default_organization_id" "SCW_DEFAULT_ORGANIZATION_ID" }
  | .zone =>
    { Err := "default zone is required"
      Details := configErrorDetails sdk "default_zone" "SCW_DEFAULT_ZONE" }
  | .region =>
    { Err := "default region is required"
      Details := configErrorDetails sdk "default_region" "SCW_DEFAULT_REGION" }

/-- The "invalid" error of a field for a malformed value: it names the value and the expected
format, for zone and region the accepted values. -/
def invalidError (sdk : SDK) : Field → String → ClientSCWError
  | .accessKey, v =>
    { Err := "invalid access key format '" ++ v ++ "', expected SCWXXXXXXXXXXXXXXXXX format"
      Details := "" }
  | .secretKey, v =>
    { Err := "invalid secret key format '" ++ v ++
        "', expected a UUID: xxxxxxxx-xxxx-xxxx-xxxx-xxxxxxxxxxxx"
      Details := "" }
  | .organizationID, v =>
    { Err := "invalid organization ID format '" ++ v ++
        "', expected a UUID: xxxxxxxx-xxxx-xxxx-xxxx-xxxxxxxxxxxx"
      Details := "" }
  | .zone, v =>
    { Err := "invalid default zone format '" ++ v ++ "', available zones are: " ++
        ", ".intercalate sdk.AllZones
      Details := "" }
  | .region, v =>
    { Err := "invalid default region format '" ++ v ++ "', available regions are: " ++
        ", ".intercalate sdk.AllRegions
      Details := "" }

/-- The error the specification asks for when `f` is the first offending field. -/
def errorAbout (sdk : SDK) (client : Client) (f : Field) : ClientSCWError :=
  if f.value client = "" then requiredError sdk f else invalidError sdk f (f.value client)

/-! ## Remote sides for concrete runs -/

/-- A remote side on which every call succeeds: reads return `snap` and `vol`, creations
return `vol` and `snap`, the delete succeeds. -/
def answeringAPI (snap : Snapshot) (vol : Volume) : BlockAPI where
  GetSnapshot := fun _ => .ok (some snap)
  CreateVolume := fun _ => .ok (some vol)
  GetVolume := fun _ => .ok (some vol)
  CreateSnapshot := fun _ => .ok (some snap)
  DeleteSnapshot := fun _ => none

/-- A remote side like `answeringAPI`, except that the delete call fails with `err`. -/
def failingDeleteAPI (snap : Snapshot) (vol : Volume) (err : LibError) : BlockAPI :=
  { answeringAPI snap vol with DeleteSnapshot := fun _ => some err }

/-- A remote failure other than not-found, for concrete runs. -/
def permissionDenied : LibError :=
  { text := "permission denied", apiErrorCode := some "PermissionDenied",
    isConfigFileNotFound := false }

/-- The remote failure that `DeleteSnapshot` recognizes as "snapshot not found". -/
def snapshotNotFound : LibError :=
  { text := "snapshot not found", apiErrorCode := some "InvalidSnapshot.NotFound",
    isConfigFileNotFound := false }

/-- The failure the Scaleway SDK reports for a resource that does not exist, a
`*scw.ResourceNotFoundError` (HTTP 404). The type has no `ErrorCode` method, so it is no
`smithy.APIError` and `errors.As` finds no API error code in it. -/
def resourceNotFound (resource resourceID : String) : LibError :=
  { text := "scaleway-sdk-go: resource " ++ resource ++ " with ID " ++ resourceID ++
      " is not found"
    apiErrorCode := none
    isConfigFileNotFound := false }

/-- A remote side like `answeringAPI` whose create-snapshot call answers with a snapshot that
records the request it got. -/
def recordingAPI (snap : Snapshot) (vol : Volume) : BlockAPI :=
  { answeringAPI snap vol with
    CreateSnapshot := fun req =>
      .ok (some { ID := "snap-of-" ++ req.VolumeID, Name := req.Name, Zone := req.Zone,
                  Tags := req.Tags }) }

/-- A snapshot for concrete runs. -/
def sampleSnapshot : Snapshot :=
  { ID := "snap-1", Name := "vol-data-snap-daily", Zone := "fr-par-1", Tags := ["env:prod"] }

/-- A volume for concrete runs. -/
def sampleVolume : Volume :=
  { ID := "vol-1", Name := "data", Type_ := "sbs_5k", Zone := "fr-par-1", Tags := ["a"],
    Specs := some { PerfIops := some 5000 } }

/-! ## A reference instance of the library parameters, for concrete runs

The definitions below stand in for scaleway-sdk-go where a run on concrete inputs needs the
libraries to answer. The general theorems do not use them. -/

/-- The access-key format: `SCW` and seventeen upper-case letters or digits. -/
def isAccessKeyFormat (s : String) : Bool :=
  HasPrefix s "SCW" && s.data.length == 20 &&
    (s.data.drop 3).all (fun c => c.isUpper || c.isDigit)

/-- A hexadecimal digit. -/
def isHexDigit (c : Char) : Bool :=
  c.isDigit || (c.toNat ≥ 97 && c.toNat ≤ 102) || (c.toNat ≥ 65 && c.toNat ≤ 70)

/-- Whether the characters are `n` hexadecimal digits. -/
def isHexGroup (n : Nat) (cs : List Char) : Bool :=
  cs.length == n && cs.all isHexDigit

/-- The canonical UUID format `xxxxxxxx-xxxx-xxxx-xxxx-xxxxxxxxxxxx`. -/
def isUUIDFormat (s : String) : Bool :=
  let cs := s.data
  cs.length == 36 &&
    isHexGroup 8 (cs.take 8) && cs.get? 8 == some '-' &&
    isHexGroup 4 ((cs.drop 9).take 4) && cs.get? 13 == some '-' &&
    isHexGroup 4 ((cs.drop 14).take 4) && cs.get? 18 == some '-' &&
    isHexGroup 4 ((cs.drop 19).take 4) && cs.get? 23 == some '-' &&
    isHexGroup 12 (cs.drop 24)

/-- The regions of the reference instance. -/
def referenceRegions : List String := ["fr-par", "nl-ams", "pl-waw"]

/-- The zones of the reference instance. -/
def referenceZones : List String :=
  ["fr-par-1", "fr-par-2", "fr-par-3", "nl-ams-1", "nl-ams-2", "nl-ams-3",
   "pl-waw-1", "pl-waw-2", "pl-waw-3"]

/-- The settings a client is built from: the credentials pair, once a secret key was given,
and the three defaults. -/
structure Settings where
  token : Option (String × String)
  defaultOrganizationID : Option String
  defaultRegion : Option String
  defaultZone : Option String
  deriving DecidableEq, Repr

/-- A profile applied to the settings: a secret key sets the credentials, every other field
that is set replaces the setting. -/
def Settings.applyProfile (s : Settings) (p : Profile) : Settings :=
  { token :=
      match p.SecretKey with
      | some secretKey => some (p.AccessKey.getD "", secretKey)
      | none => s.token
    defaultOrganizationID :=
      match p.DefaultOrganizationID with
      | some v => some v
      | none => s.defaultOrganizationID
    defaultRegion :=
      match p.DefaultRegion with
      | some v => some v
      | none => s.defaultRegion
    defaultZone :=
      match p.DefaultZone with
      | some v => some v
      | none => s.defaultZone }

/-- One client option applied to the settings; `envProfile` is what `WithEnv` loads. -/
def Settings.applyOption (envProfile : Profile) (s : Settings) : ClientOption → Settings
  | .WithEnv => s.applyProfile envProfile
  | .WithUserAgent _ => s
  | .WithDefaultRegion region => { s with defaultRegion := some region }
  | .WithProfile p => s.applyProfile p

/-- A library error with the given text that is neither an API error nor a missing config
file. -/
def plainError (text : String) : LibError :=
  { text := text, apiErrorCode := none, isConfigFileNotFound := false }

/-- The check of the settings before a client is made: credentials and defaults that are set
must be non-empty and well-formed. -/
def Settings.validate (s : Settings) : Option LibError :=
  match s.token with
  | some (accessKey, secretKey) =>
    if accessKey = "" then some (plainError "access key cannot be empty")
    else if !isAccessKeyFormat accessKey then some (plainError "invalid access key format")
    else if secretKey = "" then some (plainError "secret key cannot be empty")
    else if !isUUIDFormat secretKey then some (plainError "invalid secret key format")
    else none
  | none => none

/-- The check of one default that is set. -/
def validateDefault (what : String) (ok : String → Bool) : Option String → Option LibError
  | none => none
  | some v =>
    if v = "" then some (plainError (what ++ " cannot be empty"))
    else if !ok v then some (plainError ("invalid " ++ what ++ " format"))
    else none

/-- The reference `NewClient`: the options applied in order to empty settings, the settings
checked, and the client holding what the settings hold. -/
def referenceNewClient (envProfile : Profile) (opts : List ClientOption) :
    Except LibError Client :=
  let s := opts.foldl (Settings.applyOption envProfile)
    { token := none, defaultOrganizationID := none, defaultRegion := none, defaultZone := none }
  match s.validate,
    validateDefault "default organization ID" isUUIDFormat s.defaultOrganizationID,
    validateDefault "default region" (fun v => referenceRegions.contains v) s.defaultRegion,
    validateDefault "default zone" (fun v => referenceZones.contains v) s.defaultZone with
  | none, none, none, none =>
    .ok { AccessKey := (s.token.map Prod.fst).getD ""
          SecretKey := (s.token.map Prod.snd).getD ""
          DefaultOrganizationID := s.defaultOrganizationID.getD ""
          DefaultZone := s.defaultZone.getD ""
          DefaultRegion := s.defaultRegion.getD "" }
  | some e, _, _, _ => .error e
  | _, some e, _, _ => .error e
  | _, _, some e, _ => .error e
  | _, _, _, some e => .error e

/-- The reference `MergeProfiles`: a field set in `other` has priority. -/
def referenceMergeProfiles (original other : Profile) : Profile :=
  { AccessKey := match other.AccessKey with | some v => some v | none => original.AccessKey
    SecretKey := match other.SecretKey with | some v => some v | none => original.SecretKey
    DefaultOrganizationID :=
      match other.DefaultOrganizationID with
      | some v => some v
      | none => original.DefaultOrganizationID
    DefaultZone := match other.DefaultZone with | some v => some v | none => original.DefaultZone
    DefaultRegion :=
      match other.DefaultRegion with
      | some v => some v
      | none => original.DefaultRegion }

/-- The reference instance: the environment profile and the outcome of loading the config
file are given, the rest is as above. -/
def referenceSDK (envProfile : Profile) (configFile : Except LibError Config) : SDK where
  IsAccessKey := isAccessKeyFormat
  IsSecretKey := isUUIDFormat
  IsOrganizationID := isUUIDFormat
  IsZone := fun v => referenceZones.contains v
  IsRegion := fun v => referenceRegions.contains v
  AllZones := referenceZones
  AllRegions := referenceRegions
  GetConfigPath := "/root/.config/scw/config.yaml"
  LoadEnvProfile := envProfile
  LoadConfigFromPath := fun _ => configFile
  MergeProfiles := referenceMergeProfiles
  NewClient := referenceNewClient envProfile
  ValidateVolumeSnapshotterConfigKeys := fun config validKeys =>
    match config.find? (fun kv => !validKeys.contains kv.1) with
    | some kv => some (plainError ("invalid key " ++ kv.1))
    | none => none

/-- A profile with no field set: the environment without any `SCW_` variable. -/
def emptyProfile : Profile :=
  { AccessKey := none, SecretKey := none, DefaultOrganizationID := none, DefaultZone := none,
    DefaultRegion := none }

/-- A complete, well-formed profile. -/
def completeProfile : Profile :=
  { AccessKey := some "SCW0123456789ABCDEFG"
    SecretKey := some "7363616c-6577-6179-6d6f-64656c6c6564"
    DefaultOrganizationID := some "6170692e-7363-616c-6577-61792e636f6d"
    DefaultZone := some "fr-par-1"
    DefaultRegion := some "fr-par" }

/-- An environment profile with well-formed credentials and organization, and no zone or
region: `SCW_DEFAULT_ZONE` and `SCW_DEFAULT_REGION` are unset. -/
def profileWithoutZone : Profile :=
  { completeProfile with DefaultZone := none, DefaultRegion := none }

/-- A config file whose every profile name selects `p`. -/
def configWith (p : Profile) : Config where
  GetProfile := fun _ => .ok p

/-- The libraries in a process whose environment and config file both hold the complete
profile. -/
def completeSDK : SDK :=
  referenceSDK completeProfile (.ok (configWith completeProfile))

/-- The libraries in a process whose environment sets no zone and whose config file holds the
complete profile, zone `fr-par-1` included. -/
def zoneInFileSDK : SDK :=
  referenceSDK profileWithoutZone (.ok (configWith completeProfile))

/-- The builder `Init` makes for the region `region`. -/
def initBuilder (region : String) : clientBuilder :=
  ((newClientBuilder.WithUserAgent userAgentPrefix).WithEnvProfile).WithRegion region

/-! ## Volume information (volume_snapshotter.go, lines 112-132) -/

/-- Go `func (s *VolumeSnapshotter) GetVolumeInfo(volumeID, volumeAZ string)
(string, *int64, error)`. The second result is the pointer `&iops64`; `int64(*iops32)` widens
a `uint32` and dereferences the pointer `specs.PerfIops`. -/
def GetVolumeInfo (api : BlockAPI) (volumeID _volumeAZ : String) :
    Run (String × Option Int × Option GoError) :=
  match describeVolume api volumeID with
  | (_, some err) => .ret ("", none, some err)
  | (volumeInfo, none) =>
    let volumeType := volumeInfo.Type_
    let iops64 : Int := 0
    match volumeInfo.Specs with
    | some specs =>
      let iops32 := specs.PerfIops
      match iops32 with
      | none => .panic
      | some v => .ret (volumeType, some (Int.ofNat v), none)
    | none => .ret (volumeType, some iops64, none)

/-- A volume whose spec is present and carries no IOPS value. -/
def volumeWithoutIops : Volume :=
  { sampleVolume with Specs := some { PerfIops := none } }

/-- A volume without spec. -/
def volumeWithoutSpecs : Volume :=
  { sampleVolume with Specs := none }

/-! ## Endpoint resolution (endpoint.go) -/

/-- The fields of `aws.Endpoint` the plugin sets. -/
structure Endpoint where
  URL : String
  SigningRegion : String
  deriving DecidableEq, Repr

/-- Go `aws.Endpoint{}`, the zero value. -/
def Endpoint.zero : Endpoint := { URL := "", SigningRegion := "" }

/-- Go `type ScalewayEndpointResolver struct`. -/
structure ScalewayEndpointResolver where
  urlEnvVar : String
  region : String
  deriving DecidableEq, Repr

/-- Go `func NewScalewayEndpointResolver(urlEnvVar, regionEnvVar string)
*ScalewayEndpointResolver`. -/
def NewScalewayEndpointResolver (urlEnvVar regionEnvVar : String) : ScalewayEndpointResolver :=
  { urlEnvVar := urlEnvVar, region := regionEnvVar }

/-- The map literal `validRegions` of `ResolveEndpoint`. -/
def validRegions : List (String × Bool) :=
  [("fr-par", true), ("nl-ams", true), ("pl-waw", true)]

/-- Go `m[key]` on a `map[string]bool`: a missing key reads as `false`. -/
def mapGetBool (m : List (String × Bool)) (key : String) : Bool :=
  (m.lookup key).getD false

/-- Go `func (r *ScalewayEndpointResolver) ResolveEndpoint(service, region string,
options ...interface{}) (aws.Endpoint, error)`; the options are not read. -/
def ResolveEndpoint (env : Environ) (r : ScalewayEndpointResolver) (service region : String) :
    Endpoint × Option GoError :=
  if !mapGetBool validRegions region then
    (Endpoint.zero, some (.text ("region " ++ region ++ " is not supported for Scaleway")))
  else if service = "s3" then
    let customEndpoint := Getenv env r.urlEnvVar
    let url :=
      if customEndpoint ≠ "" then customEndpoint
      else "https://s3." ++ region ++ ".scw.cloud"
    ({ URL := url, SigningRegion := region }, none)
  else
    (Endpoint.zero, some (.text ("service " ++ service ++ " is not supported")))

/-- The resolver `WithSCWURL` makes (config.go). -/
def scwResolver : ScalewayEndpointResolver :=
  NewScalewayEndpointResolver "SCW_S3_ENDPOINT" "SCW_REGION"

/-- An environment in which only `SCW_S3_ENDPOINT` is set, to `url`. -/
def endpointEnv (url : String) : Environ :=
  fun k => if k = "SCW_S3_ENDPOINT" then some url else none

/-- An environment without any variable. -/
def emptyEnv : Environ := fun _ => none

/-- In the words of the specification: a text with its last two characters removed. -/
def dropLastTwo (s : String) : String :=
  String.mk (s.data.take (s.data.length - 2))

/-- A profile with the given zone and no other field: `SCW_DEFAULT_ZONE` alone is set. -/
def profileWithZone (zone : String) : Profile :=
  { emptyProfile with DefaultZone := some zone }

end VeleroScaleway

namespace VeleroScaleway

/-! ## Tags -/

theorem mem_keepFirstOccurrences (x : String) (r : List String) :
    ∀ e : List String, x ∈ keepFirstOccurrences e r ↔ x ∈ r ∧ x ∉ e := by
  induction r with
  | nil => intro e; simp [keepFirstOccurrences]
  | cons y ys ih =>
    intro e
    unfold keepFirstOccurrences
    by_cases hy : y ∈ e
    · rw [if_pos hy, ih]
      constructor
      · rintro ⟨h1, h2⟩
        exact ⟨List.mem_cons_of_mem _ h1, fun h => h2 (List.mem_append_left _ h)⟩
      · rintro ⟨h1, h2⟩
        rcases List.mem_cons.mp h1 with h | h
        · exact absurd (h ▸ hy) h2
        · refine ⟨h, fun h3 => ?_⟩
          rcases List.mem_append.mp h3 with h4 | h4
          · exact h2 h4
          · exact h2 (by rw [List.mem_singleton.mp h4]; exact hy)
    · rw [if_neg hy, List.mem_cons, ih]
      constructor
      · rintro (h | ⟨h1, h2⟩)
        · subst h; exact ⟨List.mem_cons_self _ _, hy⟩
        · exact ⟨List.mem_cons_of_mem _ h1, fun h => h2 (List.mem_append_left _ h)⟩
      · rintro ⟨h1, h2⟩
        by_cases hxy : x = y
        · exact Or.inl hxy
        · right
          rcases List.mem_cons.mp h1 with h | h
          · exact absurd h hxy
          · refine ⟨h, fun h3 => ?_⟩
            rcases List.mem_append.mp h3 with h4 | h4
            · exact h2 h4
            · exact hxy (List.mem_singleton.mp h4)

theorem nodup_keepFirstOccurrences (r : List String) :
    ∀ e : List String, (keepFirstOccurrences e r).Nodup := by
  induction r with
  | nil => intro e; simp [keepFirstOccurrences]
  | cons y ys ih =>
    intro e
    unfold keepFirstOccurrences
    by_cases hy : y ∈ e
    · rw [if_pos hy]; exact ih _
    · rw [if_neg hy]
      refine List.nodup_cons.mpr ⟨fun h => ?_, ih _⟩
      exact ((mem_keepFirstOccurrences y ys _).mp h).2 (by simp)

theorem sublist_keepFirstOccurrences (r : List String) :
    ∀ e : List String, (keepFirstOccurrences e r).Sublist r := by
  induction r with
  | nil => intro e; simp [keepFirstOccurrences]
  | cons y ys ih =>
    intro e
    unfold keepFirstOccurrences
    by_cases hy : y ∈ e
    · rw [if_pos hy]; exact (ih _).cons _
    · rw [if_neg hy]; exact (ih _).cons₂ _

/-- The loop of `unique`, started with a map that holds exactly the tags of `e`, appends to
its accumulator the first occurrences of the tags not in `e`. -/
theorem uniqueLoop_eq (r : List String) :
    ∀ (m : String → Bool) (acc e : List String), (∀ k, m k = true ↔ k ∈ e) →
      uniqueLoop r m acc = acc ++ keepFirstOccurrences e r := by
  induction r with
  | nil => intro m acc e _; simp [uniqueLoop, keepFirstOccurrences]
  | cons y ys ih =>
    intro m acc e hm
    unfold uniqueLoop keepFirstOccurrences
    by_cases hy : y ∈ e
    · have hmy : m y = true := (hm y).mpr hy
      rw [if_pos hy]
      simp only [hmy, Bool.not_true, Bool.false_eq_true, if_false]
      refine ih m acc (e ++ [y]) (fun k => ?_)
      rw [hm k]
      constructor
      · exact fun h => List.mem_append_left _ h
      · intro h
        rcases List.mem_append.mp h with h | h
        · exact h
        · rw [List.mem_singleton.mp h]; exact hy
    · have hmy : m y = false := by
        cases h : m y
        · rfl
        · exact absurd ((hm y).mp h) hy
      rw [if_neg hy]
      simp only [hmy, Bool.not_false, if_true]
      rw [ih _ (acc ++ [y]) (e ++ [y]) (fun k => ?_)]
      · simp
      · by_cases hk : k = y
        · simp [hk]
        · simp [hk, hm k]

/-- C7. `tags.unique` returns a list without repetition that holds exactly the tags of its
input, as the subsequence of the input keeping each tag at its first occurrence; so
`unique ["a","b","a"]` is `["a","b"]`. -/
theorem unique_first_occurrences (t : List String) :
    (tags.unique t).Nodup ∧ (∀ x, x ∈ tags.unique t ↔ x ∈ t) ∧ (tags.unique t).Sublist t ∧
      tags.unique t = keepFirstOccurrences [] t ∧
      tags.unique ["a", "b", "a"] = ["a", "b"] := by
  have h : tags.unique t = keepFirstOccurrences [] t := by
    unfold tags.unique
    rw [uniqueLoop_eq t (fun _ => false) [] [] (by simp)]
    simp
  refine ⟨?_, ?_, ?_, h, by decide⟩
  · rw [h]; exact nodup_keepFirstOccurrences t []
  · intro x; rw [h, mem_keepFirstOccurrences]; simp
  · rw [h]; exact sublist_keepFirstOccurrences t []

/-- The copy loop of `getTagsForCluster` appends the source tags it does not skip. -/
theorem clusterTagsLoop_eq (b : Bool) (src : List String) :
    ∀ result : List String, clusterTagsLoop b src result =
      result ++ src.filter
        (fun tag => !(b && (HasPrefix tag "kubernetes.io/cluster/" || tag == "KubernetesCluster")))
    := by
  induction src with
  | nil => intro result; simp [clusterTagsLoop]
  | cons y ys ih =>
    intro result
    unfold clusterTagsLoop
    by_cases h : (b && (HasPrefix y "kubernetes.io/cluster/" || y == "KubernetesCluster")) = true
    · rw [if_pos h, ih, List.filter_cons_of_neg (by simp [h])]
    · rw [Bool.not_eq_true] at h
      rw [if_neg (by simp [h]), ih, List.filter_cons_of_pos (by simp [h])]
      simp

/-- What `getTagsForCluster` does when `SCW_CLUSTER_NAME` is set to `c`: the two ownership
tags of `c`, then the source tags except those that start with `kubernetes.io/cluster/` or
are the bare string `KubernetesCluster`. -/
theorem getTagsForCluster_eq (c : String) (src : List String) :
    getTagsForCluster (clusterEnv c) src =
      ["kubernetes.io/cluster/" ++ c ++ ":owned", "KubernetesCluster:" ++ c] ++
        src.filter
          (fun tag => !(HasPrefix tag "kubernetes.io/cluster/" || tag == "KubernetesCluster"))
    := by
  have hl : clusterEnv c "SCW_CLUSTER_NAME" = some c := by simp [clusterEnv]
  simp only [getTagsForCluster, hl, Option.isSome_some, Option.getD_some, if_true,
    clusterTagsLoop_eq, Bool.true_and]
  have h1 : "kubernetes.io/cluster/" ++ c ++ ":" ++ "owned" =
      "kubernetes.io/cluster/" ++ c ++ ":owned" := by
    rw [String.append_assoc ("kubernetes.io/cluster/" ++ c)]; rfl
  have h2 : "KubernetesCluster" ++ ":" ++ c = "KubernetesCluster:" ++ c := rfl
  rw [h1, h2]

/-- C6. With `SCW_CLUSTER_NAME` set to `prod`, the source tag `KubernetesCluster:old`, an
ownership tag of the second key form, survives `getTagsForCluster` next to the new owner's
tags; the tag of the first key form in the specification's example is removed. -/
theorem getTagsForCluster_keeps_stale_owner :
    getTagsForCluster (clusterEnv "prod") ["KubernetesCluster:old", "env:prod"] =
      ["kubernetes.io/cluster/prod:owned", "KubernetesCluster:prod", "KubernetesCluster:old",
        "env:prod"] ∧
    isOwnershipTag "KubernetesCluster:old" = true ∧
    getTagsForCluster (clusterEnv "prod") ["kubernetes.io/cluster/old:owned", "env:prod"] =
      ["kubernetes.io/cluster/prod:owned", "KubernetesCluster:prod", "env:prod"] := by
  decide

/-! ## Volume and snapshot lifecycle -/

/-- Whenever the remote `GetSnapshot` call succeeds and returns a snapshot,
`CreateVolumeFromSnapshot` takes the branch `getSnapOutput != nil` and returns its error. -/
theorem CreateVolumeFromSnapshot_of_snapshot (api : BlockAPI) (env : Environ)
    (snapshotID volumeAZ : String) (iops : Nat) (snap : Snapshot)
    (h : api.GetSnapshot { Zone := volumeAZ, SnapshotID := snapshotID } = .ok (some snap)) :
    CreateVolumeFromSnapshot api env snapshotID volumeAZ iops =
      .ret ("", some (.text ("expected snapshot from GetSnapshot for " ++ snapshotID))) := by
  simp [CreateVolumeFromSnapshot, h]

/-- On no remote side does `CreateVolumeFromSnapshot` return a volume ID without an error. -/
theorem CreateVolumeFromSnapshot_never_succeeds (api : BlockAPI) (env : Environ)
    (snapshotID volumeAZ : String) (iops : Nat) (v : String) :
    CreateVolumeFromSnapshot api env snapshotID volumeAZ iops ≠ .ret (v, none) := by
  unfold CreateVolumeFromSnapshot
  cases h : api.GetSnapshot { Zone := volumeAZ, SnapshotID := snapshotID } with
  | error e => simp
  | ok o =>
    cases o with
    | none => simp
    | some snap => simp

/-- C1. The remote `GetSnapshot` returns the snapshot `snap-1` and the remote `CreateVolume`
would return the volume `vol-1`; `CreateVolumeFromSnapshot` returns the empty ID and the
error "expected snapshot from GetSnapshot for snap-1". -/
theorem CreateVolumeFromSnapshot_rejects_found_snapshot :
    (answeringAPI sampleSnapshot sampleVolume).GetSnapshot
        { Zone := "fr-par-1", SnapshotID := "snap-1" } = .ok (some sampleSnapshot) ∧
    (∀ req, (answeringAPI sampleSnapshot sampleVolume).CreateVolume req =
        .ok (some sampleVolume)) ∧
    CreateVolumeFromSnapshot (answeringAPI sampleSnapshot sampleVolume) (clusterEnv "prod")
        "snap-1" "fr-par-1" 5000 =
      .ret ("", some (.text "expected snapshot from GetSnapshot for snap-1")) := by
  refine ⟨rfl, fun _ => rfl, ?_⟩
  exact CreateVolumeFromSnapshot_of_snapshot _ _ _ _ _ sampleSnapshot rfl

/-- What `DeleteSnapshot` does for each remote outcome: it returns no error exactly when the
remote delete succeeds or fails with the API error code `InvalidSnapshot.NotFound`; on every
other remote failure it returns that failure wrapped by `errors.WithStack`. -/
theorem DeleteSnapshot_idempotent (api : BlockAPI) (snapshotID : String) :
    (DeleteSnapshot api snapshotID = none ↔
      (api.DeleteSnapshot { SnapshotID := snapshotID } = none ∨
        ∃ e, api.DeleteSnapshot { SnapshotID := snapshotID } = some e ∧
          e.apiErrorCode = some "InvalidSnapshot.NotFound")) ∧
    (∀ e, api.DeleteSnapshot { SnapshotID := snapshotID } = some e →
      e.apiErrorCode ≠ some "InvalidSnapshot.NotFound" →
      DeleteSnapshot api snapshotID = some (.withStack (.lib e))) := by
  cases h : api.DeleteSnapshot { SnapshotID := snapshotID } with
  | none => simp [DeleteSnapshot, h]
  | some e =>
    by_cases hc : e.apiErrorCode = some "InvalidSnapshot.NotFound"
    · simp [DeleteSnapshot, h, hc]
    · simp [DeleteSnapshot, h, hc]

/-- Two runs of `DeleteSnapshot`: a remote "permission denied" failure comes back wrapped, and
a remote failure with the API error code `InvalidSnapshot.NotFound` comes back as success. -/
theorem DeleteSnapshot_idempotent_witness :
    DeleteSnapshot (failingDeleteAPI sampleSnapshot sampleVolume permissionDenied) "snap-1" =
      some (.withStack (.lib permissionDenied)) ∧
    DeleteSnapshot (failingDeleteAPI sampleSnapshot sampleVolume snapshotNotFound) "snap-1" =
      none :=
  ⟨(DeleteSnapshot_idempotent _ "snap-1").2 _ rfl (by decide),
   (DeleteSnapshot_idempotent _ "snap-1").1.mpr (Or.inr ⟨_, rfl, rfl⟩)⟩

/-- A remote failure in which `errors.As` finds no `smithy.APIError` comes back from
`DeleteSnapshot` as an error, whatever the failure says. -/
theorem DeleteSnapshot_of_no_api_error (api : BlockAPI) (snapshotID : String) (e : LibError)
    (h : api.DeleteSnapshot { SnapshotID := snapshotID } = some e)
    (hc : e.apiErrorCode = none) :
    DeleteSnapshot api snapshotID = some (.withStack (.lib e)) := by
  simp [DeleteSnapshot, h, hc]

/-- C2. The snapshot `snap-1` does not exist and the remote delete reports it the way the
Scaleway SDK does, by a `*scw.ResourceNotFoundError`: `DeleteSnapshot` returns that failure
wrapped, not success. -/
theorem DeleteSnapshot_fails_on_missing_snapshot :
    (failingDeleteAPI sampleSnapshot sampleVolume
        (resourceNotFound "snapshot" "snap-1")).DeleteSnapshot { SnapshotID := "snap-1" } =
      some (resourceNotFound "snapshot" "snap-1") ∧
    (resourceNotFound "snapshot" "snap-1").apiErrorCode = none ∧
    DeleteSnapshot
        (failingDeleteAPI sampleSnapshot sampleVolume (resourceNotFound "snapshot" "snap-1"))
        "snap-1" =
      some (.withStack (.lib (resourceNotFound "snapshot" "snap-1"))) :=
  ⟨rfl, rfl, DeleteSnapshot_of_no_api_error _ "snap-1" _ rfl rfl⟩

/-- C8. When the remote `GetVolume` returns the volume `v`, `CreateSnapshot` passes to the
remote `CreateSnapshot` the request with `v`'s ID and zone, the name
`vol-<v.Name>-snap-<name>` and the tags `merge(v.Tags, extra) = unique(v.Tags ++ extra)`, and
returns what that request yields: the created snapshot's ID on success, the wrapped error on
failure. `merge ["a"] ["b","a"]` is `["a","b"]`. -/
theorem CreateSnapshot_request (api : BlockAPI) (volumeID snapshotName : String)
    (extraTags : List String) (v : Volume)
    (h : api.GetVolume { VolumeID := volumeID } = .ok (some v)) :
    tags.merge v.Tags extraTags = tags.unique (v.Tags ++ extraTags) ∧
    CreateSnapshot api volumeID snapshotName extraTags =
      (match api.CreateSnapshot
          { VolumeID := v.ID
            Tags := tags.merge v.Tags extraTags
            Zone := v.Zone
            Name := "vol-" ++ v.Name ++ "-snap-" ++ snapshotName } with
        | .ok (some res) => .ret (res.ID, none)
        | .ok none => .panic
        | .error err => .ret ("", some (.withStack (.lib err)))) ∧
    (∀ res, api.CreateSnapshot
          { VolumeID := v.ID
            Tags := tags.unique (v.Tags ++ extraTags)
            Zone := v.Zone
            Name := "vol-" ++ v.Name ++ "-snap-" ++ snapshotName } = .ok (some res) →
        CreateSnapshot api volumeID snapshotName extraTags = .ret (res.ID, none)) ∧
    tags.merge ["a"] ["b", "a"] = ["a", "b"] := by
  have hd : describeVolume api volumeID = (v, none) := by simp [describeVolume, h]
  have hm : tags.merge v.Tags extraTags = tags.unique (v.Tags ++ extraTags) := rfl
  have hc : CreateSnapshot api volumeID snapshotName extraTags =
      (match api.CreateSnapshot
          { VolumeID := v.ID
            Tags := tags.merge v.Tags extraTags
            Zone := v.Zone
            Name := "vol-" ++ v.Name ++ "-snap-" ++ snapshotName } with
        | .ok (some res) => .ret (res.ID, none)
        | .ok none => .panic
        | .error err => .ret ("", some (.withStack (.lib err)))) := by
    simp only [CreateSnapshot, hd, toTags]
    split <;> simp_all
  refine ⟨hm, hc, fun res hres => ?_, by decide⟩
  rw [hc, hm, hres]

/-- A run of C8: the volume `data` with tags `["a"]`, snapshot name `daily`, extra tags
`["b","a"]`, on a remote side that records the request in the snapshot it returns. -/
theorem CreateSnapshot_request_witness :
    (recordingAPI sampleSnapshot sampleVolume).GetVolume { VolumeID := "vol-1" } =
      .ok (some sampleVolume) ∧
    (recordingAPI sampleSnapshot sampleVolume).CreateSnapshot
        { VolumeID := "vol-1", Tags := ["a", "b"], Zone := "fr-par-1",
          Name := "vol-data-snap-daily" } =
      .ok (some { ID := "snap-of-vol-1", Name := "vol-data-snap-daily", Zone := "fr-par-1",
                  Tags := ["a", "b"] }) ∧
    CreateSnapshot (recordingAPI sampleSnapshot sampleVolume) "vol-1" "daily" ["b", "a"] =
      .ret ("snap-of-vol-1", none) :=
  ⟨rfl, rfl,
   (CreateSnapshot_request (recordingAPI sampleSnapshot sampleVolume) "vol-1" "daily" ["b", "a"]
      sampleVolume rfl).2.2.1
      { ID := "snap-of-vol-1", Name := "vol-data-snap-daily", Zone := "fr-par-1",
        Tags := ["a", "b"] } rfl⟩


/-! ## Client configuration -/

theorem Field.valid_iff (sdk : SDK) (client : Client) (f : Field) :
    f.valid sdk client = true ↔
      f.value client ≠ "" ∧ f.wellFormed sdk (f.value client) = true := by
  simp only [Field.valid, Bool.and_eq_true, bne_iff_ne, ne_eq]

theorem Field.valid_of (sdk : SDK) (client : Client) (f : Field)
    (h1 : ¬ f.value client = "") (h2 : f.wellFormed sdk (f.value client) = true) :
    f.valid sdk client = true :=
  (Field.valid_iff sdk client f).mpr ⟨h1, h2⟩

theorem Field.not_valid_of_empty (sdk : SDK) (client : Client) (f : Field)
    (h : f.value client = "") : f.valid sdk client = false := by
  rw [← Bool.not_eq_true, Field.valid_iff]
  exact fun h2 => h2.1 h

theorem Field.not_valid_of_malformed (sdk : SDK) (client : Client) (f : Field)
    (h : f.wellFormed sdk (f.value client) = false) : f.valid sdk client = false := by
  rw [← Bool.not_eq_true, Field.valid_iff]
  intro h2
  rw [h] at h2
  exact Bool.false_ne_true h2.2

/-- The first offending field is `f` when the fields before it in the check order are valid
and `f` is not. -/
theorem firstOffending_eq (sdk : SDK) (client : Client) (before : List Field) (f : Field)
    (after : List Field) (horder : Field.checkOrder = before ++ f :: after)
    (hbefore : ∀ g ∈ before, g.valid sdk client = true) (hf : f.valid sdk client = false) :
    firstOffending sdk client = some f := by
  unfold firstOffending
  rw [horder]
  clear horder
  induction before with
  | nil => simp [hf]
  | cons g gs ih =>
    have hg : g.valid sdk client = true := hbefore g (List.mem_cons_self _ _)
    rw [List.cons_append, List.find?_cons]
    simp only [hg, Bool.not_true]
    exact ih (fun g2 h2 => hbefore g2 (List.mem_cons_of_mem _ h2))

theorem firstOffending_eq_none_iff (sdk : SDK) (client : Client) :
    firstOffending sdk client = none ↔ ∀ f : Field, f.valid sdk client = true := by
  unfold firstOffending
  rw [List.find?_eq_none]
  constructor
  · intro h f
    have := h f (by cases f <;> simp [Field.checkOrder])
    simpa using this
  · intro h f _
    simp [h f]

/-- The error of `validateClient` is the error about the first offending field. -/
theorem validateClient_eq_errorAbout (sdk : SDK) (client : Client) :
    validateClient sdk client = (firstOffending sdk client).map (errorAbout sdk client) := by
  by_cases a1 : client.AccessKey = ""
  · rw [firstOffending_eq sdk client [] .accessKey _ rfl (by simp)
      (Field.not_valid_of_empty sdk client .accessKey a1)]
    simp only [validateClient, a1, if_true, Option.map_some', errorAbout, Field.value,
      requiredError]
  by_cases a2 : sdk.IsAccessKey client.AccessKey = true
  swap
  · rw [Bool.not_eq_true] at a2
    rw [firstOffending_eq sdk client [] .accessKey _ rfl (by simp)
      (Field.not_valid_of_malformed sdk client .accessKey a2)]
    simp only [validateClient, a1, a2, if_true, if_false, Bool.not_false, Option.map_some',
      errorAbout, Field.value, invalidError]
  have va := Field.valid_of sdk client .accessKey a1 a2
  by_cases b1 : client.SecretKey = ""
  · rw [firstOffending_eq sdk client [.accessKey] .secretKey _ rfl (by simp [va])
      (Field.not_valid_of_empty sdk client .secretKey b1)]
    simp only [validateClient, a1, a2, b1, if_true, if_false, Bool.not_true,
      Bool.false_eq_true, Option.map_some', errorAbout, Field.value, requiredError]
  by_cases b2 : sdk.IsSecretKey client.SecretKey = true
  swap
  · rw [Bool.not_eq_true] at b2
    rw [firstOffending_eq sdk client [.accessKey] .secretKey _ rfl (by simp [va])
      (Field.not_valid_of_malformed sdk client .secretKey b2)]
    simp only [validateClient, a1, a2, b1, b2, if_true, if_false, Bool.not_true,
      Bool.not_false, Bool.false_eq_true, Option.map_some', errorAbout, Field.value,
      invalidError]
  have vb := Field.valid_of sdk client .secretKey b1 b2
  by_cases c1 : client.DefaultOrganizationID = ""
  · rw [firstOffending_eq sdk client [.accessKey, .secretKey] .organizationID _ rfl
      (by simp [va, vb]) (Field.not_valid_of_empty sdk client .organizationID c1)]
    simp only [validateClient, a1, a2, b1, b2, c1, if_true, if_false, Bool.not_true,
      Bool.false_eq_true, Option.map_some', errorAbout, Field.value, requiredError]
  by_cases c2 : sdk.IsOrganizationID client.DefaultOrganizationID = true
  swap
  · rw [Bool.not_eq_true] at c2
    rw [firstOffending_eq sdk client [.accessKey, .secretKey] .organizationID _ rfl
      (by simp [va, vb]) (Field.not_valid_of_malformed sdk client .organizationID c2)]
    simp only [validateClient, a1, a2, b1, b2, c1, c2, if_true, if_false, Bool.not_true,
      Bool.not_false, Bool.false_eq_true, Option.map_some', errorAbout, Field.value,
      invalidError]
  have vc := Field.valid_of sdk client .organizationID c1 c2
  by_cases d1 : client.DefaultZone = ""
  · rw [firstOffending_eq sdk client [.accessKey, .secretKey, .organizationID] .zone _ rfl
      (by simp [va, vb, vc]) (Field.not_valid_of_empty sdk client .zone d1)]
    simp only [validateClient, a1, a2, b1, b2, c1, c2, d1, if_true, if_false, Bool.not_true,
      Bool.false_eq_true, Option.map_some', errorAbout, Field.value, requiredError]
  by_cases d2 : sdk.IsZone client.DefaultZone = true
  swap
  · rw [Bool.not_eq_true] at d2
    rw [firstOffending_eq sdk client [.accessKey, .secretKey, .organizationID] .zone _ rfl
      (by simp [va, vb, vc]) (Field.not_valid_of_malformed sdk client .zone d2)]
    simp only [validateClient, a1, a2, b1, b2, c1, c2, d1, d2, if_true, if_false,
      Bool.not_true, Bool.not_false, Bool.false_eq_true, Option.map_some', errorAbout,
      Field.value, invalidError]
  have vd := Field.valid_of sdk client .zone d1 d2
  by_cases e1 : client.DefaultRegion = ""
  · rw [firstOffending_eq sdk client [.accessKey, .secretKey, .organizationID, .zone] .region
      _ rfl (by simp [va, vb, vc, vd]) (Field.not_valid_of_empty sdk client .region e1)]
    simp only [validateClient, a1, a2, b1, b2, c1, c2, d1, d2, e1, if_true, if_false,
      Bool.not_true, Bool.false_eq_true, Option.map_some', errorAbout, Field.value,
      requiredError]
  by_cases e2 : sdk.IsRegion client.DefaultRegion = true
  swap
  · rw [Bool.not_eq_true] at e2
    rw [firstOffending_eq sdk client [.accessKey, .secretKey, .organizationID, .zone] .region
      _ rfl (by simp [va, vb, vc, vd]) (Field.not_valid_of_malformed sdk client .region e2)]
    simp only [validateClient, a1, a2, b1, b2, c1, c2, d1, d2, e1, e2, if_true, if_false,
      Bool.not_true, Bool.not_false, Bool.false_eq_true, Option.map_some', errorAbout,
      Field.value, invalidError]
  have ve := Field.valid_of sdk client .region e1 e2
  have hnone : firstOffending sdk client = none := by
    simp only [firstOffending, Field.checkOrder, List.find?_cons, va, vb, vc, vd, ve,
      Bool.not_true, List.find?_nil]
  rw [hnone]
  simp only [validateClient, a1, a2, b1, b2, c1, c2, d1, d2, e1, e2, if_false,
    Bool.not_true, Bool.false_eq_true, Option.map_none']

theorem validateClient_valid_iff (sdk : SDK) (client : Client) :
    validateClient sdk client = none ↔
      ∀ f : Field, f.value client ≠ "" ∧ f.wellFormed sdk (f.value client) = true := by
  rw [validateClient_eq_errorAbout, Option.map_eq_none', firstOffending_eq_none_iff]
  exact forall_congr' fun f => Field.valid_iff sdk client f

/-- C3. `validateClient` returns no error exactly when each of the five fields is non-empty
and passes its format predicate; otherwise its error is the one about the first offending
field in the order access key, secret key, organization ID, zone, region: the "required"
error of that field when it is empty, its "invalid" error when it is malformed. -/
theorem validateClient_first_offending (sdk : SDK) (client : Client) :
    (validateClient sdk client = none ↔
      ∀ f : Field, f.value client ≠ "" ∧ f.wellFormed sdk (f.value client) = true) ∧
    validateClient sdk client = (firstOffending sdk client).map (errorAbout sdk client) :=
  ⟨validateClient_valid_iff sdk client, validateClient_eq_errorAbout sdk client⟩

/-- C5. The environment sets credentials and organization but no zone, the config file's
profile holds the zone `fr-par-1`: the client `Build` makes has an empty zone, not the file's,
and `Build` reports "default zone is required". -/
theorem Build_ignores_file_profile :
    zoneInFileSDK.LoadEnvProfile.DefaultZone = none ∧
    loadProfile zoneInFileSDK "" "default" = .ok completeProfile ∧
    (initBuilder "fr-par").Build zoneInFileSDK "" "default" =
      .ret (some { AccessKey := "SCW0123456789ABCDEFG"
                   SecretKey := "7363616c-6577-6179-6d6f-64656c6c6564"
                   DefaultOrganizationID := "6170692e-7363-616c-6577-61792e636f6d"
                   DefaultZone := ""
                   DefaultRegion := "fr-par" },
            some (.clientSCW (requiredError zoneInFileSDK .zone))) :=
  ⟨rfl, rfl, rfl⟩

/-! ## Persistent-volume documents -/

theorem ebsVolumeIDRegex_eq :
    ebsVolumeIDRegex =
      [.one (.lit 'v'), .one (.lit 'o'), .one (.lit 'l'), .one (.lit '-'), .star .dot] := by
  decide

/-- A starred `.` at the end of a pattern takes the input up to the first line feed. -/
theorem starLoop_dot (cont : List Char → Option (List Char)) (hcont : ∀ x, cont x = some [])
    (cs : List Char) : starLoop .dot cont cs = some (cs.takeWhile (fun c => c != '\n')) := by
  induction cs with
  | nil => simp [starLoop, hcont]
  | cons c cs ih =>
    unfold starLoop
    by_cases h : (c != '\n') = true
    · have ha : CharClass.dot.accepts c = true := h
      rw [if_pos ha, ih]
      simp only [List.takeWhile_cons, h, if_true]
    · have ha : ¬ CharClass.dot.accepts c = true := h
      rw [if_neg ha, hcont]
      simp only [List.takeWhile_cons, h, if_false, Bool.false_eq_true]

/-- A pattern of literal characters followed by `.*` matches at a given position exactly when
the input goes on with the literals, and then it matches up to the first line feed. -/
theorem matchHere_literals (lits : List Char) (hl : '\n' ∉ lits) :
    ∀ cs : List Char,
      matchHere (lits.map (fun a => RegexNode.one (.lit a)) ++ [.star .dot]) cs =
        if lits.isPrefixOf cs then some (cs.takeWhile (fun c => c != '\n')) else none := by
  induction lits with
  | nil =>
    intro cs
    simp only [List.map_nil, List.nil_append, matchHere, List.isPrefixOf, if_true]
    exact starLoop_dot _ (fun _ => rfl) cs
  | cons a lits ih =>
    intro cs
    have ha : a ≠ '\n' := fun h => hl (h ▸ List.mem_cons_self _ _)
    have hl2 : '\n' ∉ lits := fun h => hl (List.mem_cons_of_mem _ h)
    cases cs with
    | nil => simp [matchHere, List.isPrefixOf]
    | cons c cs =>
      simp only [List.map_cons, List.cons_append, matchHere, CharClass.accepts,
        List.isPrefixOf, ih hl2 cs]
      by_cases hc : c = a
      · subst hc
        have hp : (c != '\n') = true := by simpa using ha
        by_cases hq : lits.isPrefixOf cs = true
        · simp [hq, List.takeWhile_cons, hp, ih hl2 cs]
        · simp [hq, ih hl2 cs]
      · have hc2 : ¬ a = c := fun h => hc h.symm
        simp [hc, hc2]

/-- At a given position `vol-.*` matches exactly when the input goes on with `vol-`, and then
it matches up to the first line feed. -/
theorem matchHere_ebsVolumeIDRegex (cs : List Char) :
    matchHere ebsVolumeIDRegex cs =
      if ['v', 'o', 'l', '-'].isPrefixOf cs then some (cs.takeWhile (fun c => c != '\n'))
      else none := by
  rw [ebsVolumeIDRegex_eq]
  exact matchHere_literals ['v', 'o', 'l', '-'] (by decide) cs

/-- The leftmost match of `vol-.*` is the text from the first occurrence of `vol-` up to the
first line feed after it. -/
theorem findFirst_ebsVolumeIDRegex (cs : List Char) :
    (findFirst ebsVolumeIDRegex cs).getD [] =
      (fromFirstOccurrence ['v', 'o', 'l', '-'] cs).takeWhile (fun c => c != '\n') := by
  induction cs with
  | nil =>
    simp [findFirst, matchHere_ebsVolumeIDRegex, fromFirstOccurrence, List.isPrefixOf]
  | cons c cs ih =>
    unfold findFirst fromFirstOccurrence
    rw [matchHere_ebsVolumeIDRegex]
    by_cases h : ['v', 'o', 'l', '-'].isPrefixOf (c :: cs) = true
    · simp only [h, if_true, Option.getD_some]
    · simp only [h, if_false, Bool.false_eq_true]
      exact ih

theorem FindString_ebsVolumeIDRegex (s : String) :
    FindString ebsVolumeIDRegex s =
      String.mk ((fromFirstOccurrence "vol-".data s.data).takeWhile (fun c => c != '\n')) := by
  unfold FindString
  rw [findFirst_ebsVolumeIDRegex]

theorem mem_of_mem_fromFirstOccurrence (pat : List Char) (x : Char) (cs : List Char) :
    x ∈ fromFirstOccurrence pat cs → x ∈ cs := by
  induction cs with
  | nil => simp [fromFirstOccurrence]
  | cons c cs ih =>
    unfold fromFirstOccurrence
    split
    · exact id
    · exact fun h => List.mem_cons_of_mem _ (ih h)

theorem fromFirstOccurrence_of_isPrefixOf (pat cs : List Char)
    (h : pat.isPrefixOf cs = true) (hne : cs ≠ []) : fromFirstOccurrence pat cs = cs := by
  cases cs with
  | nil => exact absurd rfl hne
  | cons c cs => simp [fromFirstOccurrence, h]

theorem fromFirstOccurrence_of_not_occurs (pat cs : List Char)
    (h : ¬ ∃ pre post, cs = pre ++ pat ++ post) : fromFirstOccurrence pat cs = [] := by
  induction cs with
  | nil => rfl
  | cons c cs ih =>
    unfold fromFirstOccurrence
    by_cases hp : pat.isPrefixOf (c :: cs) = true
    · exfalso
      obtain ⟨t, ht⟩ := List.isPrefixOf_iff_prefix.mp hp
      exact h ⟨[], t, by simpa using ht.symm⟩
    · rw [if_neg hp]
      refine ih (fun ⟨pre, post, hpp⟩ => h ⟨c :: pre, post, ?_⟩)
      simp [hpp]

/-- On a handle without line feed, `FindString` with `vol-.*` is the part of the handle from
the first `vol-` on. -/
theorem FindString_of_no_linefeed (s : String) (h : '\n' ∉ s.data) :
    FindString ebsVolumeIDRegex s = String.mk (fromFirstOccurrence "vol-".data s.data) := by
  rw [FindString_ebsVolumeIDRegex]
  congr 1
  rw [List.takeWhile_eq_self_iff]
  intro x hx
  have hx2 := mem_of_mem_fromFirstOccurrence _ _ _ hx
  simp only [bne_iff_ne, ne_eq]
  intro hxe
  exact h (hxe ▸ hx2)

/-- What `GetVolumeID` returns on a document that parses. -/
theorem GetVolumeID_eq {Doc : Type} (conv : UnstructuredConverter Doc) (doc : Doc)
    (pv : PersistentVolume) (hparse : conv.FromUnstructured doc = .ok pv) :
    GetVolumeID conv doc =
      (match pv.Spec.CSI with
        | some csi =>
          if csi.Driver = sbsCSIDriver then (FindString ebsVolumeIDRegex csi.VolumeHandle, none)
          else ("", none)
        | none => ("", none)) := by
  simp only [GetVolumeID, hparse]

/-- C9. On a document that parses: with a CSI block of the driver
`sbs-default.csi.scaleway.com`, `GetVolumeID` returns without error the part of the volume
handle from its first `vol-` to its end when the handle has no line feed, hence the whole
handle when it starts with `vol-`, and the empty string when `vol-` does not occur in the
handle; with another driver, or without a CSI block, it returns the empty string without
error. -/
theorem GetVolumeID_returns_handle {Doc : Type} (conv : UnstructuredConverter Doc) (doc : Doc)
    (pv : PersistentVolume) (hparse : conv.FromUnstructured doc = .ok pv) :
    (∀ csi, pv.Spec.CSI = some csi → csi.Driver = sbsCSIDriver →
      ('\n' ∉ csi.VolumeHandle.data →
        GetVolumeID conv doc =
          (String.mk (fromFirstOccurrence "vol-".data csi.VolumeHandle.data), none)) ∧
      ('\n' ∉ csi.VolumeHandle.data → HasPrefix csi.VolumeHandle "vol-" = true →
        GetVolumeID conv doc = (csi.VolumeHandle, none)) ∧
      ((¬ ∃ pre post, csi.VolumeHandle.data = pre ++ "vol-".data ++ post) →
        GetVolumeID conv doc = ("", none))) ∧
    (∀ csi, pv.Spec.CSI = some csi → csi.Driver ≠ sbsCSIDriver →
      GetVolumeID conv doc = ("", none)) ∧
    (pv.Spec.CSI = none → GetVolumeID conv doc = ("", none)) := by
  rw [GetVolumeID_eq conv doc pv hparse]
  refine ⟨fun csi hcsi hdrv => ⟨fun hnl => ?_, fun hnl hpre => ?_, fun hno => ?_⟩,
    fun csi hcsi hdrv => ?_, fun hcsi => ?_⟩
  · simp only [hcsi, hdrv, if_true, FindString_of_no_linefeed _ hnl]
  · simp only [hcsi, hdrv, if_true, FindString_of_no_linefeed _ hnl]
    have hne : csi.VolumeHandle.data ≠ [] := by
      intro h0
      unfold HasPrefix at hpre
      rw [h0] at hpre
      exact absurd hpre (by decide)
    rw [fromFirstOccurrence_of_isPrefixOf _ _ hpre hne]
  · simp only [hcsi, hdrv, if_true, FindString_ebsVolumeIDRegex,
      fromFirstOccurrence_of_not_occurs _ _ hno]
    rfl
  · simp only [hcsi, hdrv, if_false]
  · simp only [hcsi]

/-- A run of C9 on the documents of `TestGetVolumeIDForCSI`. -/
theorem GetVolumeID_returns_handle_witness :
    documentConverter.FromUnstructured (testDocument sbsCSIDriver "vol-0866e1c99bd130a2c") =
      .ok { Spec := { CSI := some { Driver := sbsCSIDriver,
                                    VolumeHandle := "vol-0866e1c99bd130a2c",
                                    FSType := "ext4" } } } ∧
    GetVolumeID documentConverter (testDocument sbsCSIDriver "vol-0866e1c99bd130a2c") =
      ("vol-0866e1c99bd130a2c", none) :=
  ⟨rfl,
   ((GetVolumeID_returns_handle documentConverter
      (testDocument sbsCSIDriver "vol-0866e1c99bd130a2c") _ rfl).1 _ rfl rfl).2.1
      (by decide) rfl⟩

/-- The reference converter reads back every volume it has written. -/
theorem documentConverter_roundtrip (pv : PersistentVolume) (d : Document)
    (h : documentConverter.ToUnstructured pv = .ok d) :
    documentConverter.FromUnstructured d = .ok pv := by
  obtain ⟨⟨csi⟩⟩ := pv
  cases csi with
  | none =>
    simp only [documentConverter, Except.ok.injEq] at h
    subst h
    rfl
  | some csi =>
    obtain ⟨drv, handle, fs⟩ := csi
    simp only [documentConverter, Except.ok.injEq] at h
    subst h
    by_cases hfs : fs = ""
    · subst hfs
      rfl
    · simp only [documentConverter, hfs, if_false]
      rfl

/-- The reference converter writes every volume. -/
theorem documentConverter_writes (pv : PersistentVolume) :
    ∃ d, documentConverter.ToUnstructured pv = .ok d := by
  obtain ⟨⟨csi⟩⟩ := pv
  cases csi with
  | none => exact ⟨_, rfl⟩
  | some csi => exact ⟨_, rfl⟩

/-- What `SetVolumeID` returns on a document that parses with a CSI block of the recognized
driver: the document the converter writes for the volume with the handle replaced. -/
theorem SetVolumeID_eq {Doc : Type} (conv : UnstructuredConverter Doc) (doc : Doc)
    (pv : PersistentVolume) (csi : CSIPersistentVolumeSource) (volumeID : String)
    (hparse : conv.FromUnstructured doc = .ok pv) (hcsi : pv.Spec.CSI = some csi)
    (hdrv : csi.Driver = sbsCSIDriver) :
    SetVolumeID conv doc volumeID =
      (match conv.ToUnstructured
          { Spec := { CSI := some { csi with VolumeHandle := volumeID } } } with
        | .error err => (none, some (.withStack (.lib err)))
        | .ok res => (some res, none)) := by
  simp only [SetVolumeID, hparse, hcsi, hdrv, if_true]

/-- C10 as stated fails: the new ID `vol-a`, line feed, `b` starts with `vol-` and is written
to the document, yet `GetVolumeID` on the result returns `vol-a`. -/
theorem SetVolumeID_linefeed_not_read_back :
    HasPrefix "vol-a\nb" "vol-" = true ∧
    ∃ res,
      SetVolumeID documentConverter (testDocument sbsCSIDriver "vol-0866e1c99bd130a2c")
        "vol-a\nb" = (some res, none) ∧
      documentConverter.FromUnstructured res =
        .ok { Spec := { CSI := some { Driver := sbsCSIDriver, VolumeHandle := "vol-a\nb",
                                      FSType := "ext4" } } } ∧
      GetVolumeID documentConverter res = ("vol-a", none) :=
  ⟨by decide, _, rfl, rfl, by decide⟩

/-- C10, amended. With a converter that writes every volume and reads back what it wrote: on
a document whose CSI block has the driver `sbs-default.csi.scaleway.com`, `SetVolumeID`
succeeds for every new ID, and re-reading the returned document gives the CSI block with the
same driver and the new ID as volume handle; `GetVolumeID` on the result returns the new ID
whenever it starts with `vol-` and contains no line feed. -/
theorem SetVolumeID_overwrites_handle {Doc : Type} (conv : UnstructuredConverter Doc)
    (doc : Doc) (pv : PersistentVolume) (csi : CSIPersistentVolumeSource) (volumeID : String)
    (hwrite : ∀ v, ∃ d, conv.ToUnstructured v = .ok d)
    (hread : ∀ v d, conv.ToUnstructured v = .ok d → conv.FromUnstructured d = .ok v)
    (hparse : conv.FromUnstructured doc = .ok pv) (hcsi : pv.Spec.CSI = some csi)
    (hdrv : csi.Driver = sbsCSIDriver) :
    ∃ res, SetVolumeID conv doc volumeID = (some res, none) ∧
      conv.FromUnstructured res =
        .ok { Spec := { CSI := some { Driver := csi.Driver, VolumeHandle := volumeID,
                                      FSType := csi.FSType } } } ∧
      (HasPrefix volumeID "vol-" = true → '\n' ∉ volumeID.data →
        GetVolumeID conv res = (volumeID, none)) := by
  obtain ⟨res, hres⟩ := hwrite { Spec := { CSI := some { csi with VolumeHandle := volumeID } } }
  have hback := hread _ _ hres
  refine ⟨res, ?_, hback, fun hpre hnl => ?_⟩
  · rw [SetVolumeID_eq conv doc pv csi volumeID hparse hcsi hdrv, hres]
  · rw [GetVolumeID_eq conv res _ hback]
    simp only [hdrv, if_true, FindString_of_no_linefeed _ hnl]
    have hne : volumeID.data ≠ [] := by
      intro h0
      unfold HasPrefix at hpre
      rw [h0] at hpre
      exact absurd hpre (by decide)
    rw [fromFirstOccurrence_of_isPrefixOf _ _ hpre hne]

/-- A run of C10 on the document of `TestSetVolumeIDForCSI`: the handle
`vol-0866e1c99bd130a2c` is overwritten with `vol-abcd`, which is read back. -/
theorem SetVolumeID_overwrites_handle_witness :
    ∃ res,
      SetVolumeID documentConverter (testDocument sbsCSIDriver "vol-0866e1c99bd130a2c")
        "vol-abcd" = (some res, none) ∧
      documentConverter.FromUnstructured res =
        .ok { Spec := { CSI := some { Driver := sbsCSIDriver, VolumeHandle := "vol-abcd",
                                      FSType := "ext4" } } } ∧
      (HasPrefix "vol-abcd" "vol-" = true → '\n' ∉ "vol-abcd".data →
        GetVolumeID documentConverter res = ("vol-abcd", none)) :=
  SetVolumeID_overwrites_handle documentConverter
    (testDocument sbsCSIDriver "vol-0866e1c99bd130a2c") _
    { Driver := sbsCSIDriver, VolumeHandle := "vol-0866e1c99bd130a2c", FSType := "ext4" }
    "vol-abcd" documentConverter_writes documentConverter_roundtrip rfl rfl rfl

/-! ## Errors of `SetVolumeID` -/

/-- On a document that parses without CSI block, `SetVolumeID` returns the error
"spec.csi not found" and no document. -/
theorem SetVolumeID_of_no_csi {Doc : Type} (conv : UnstructuredConverter Doc) (doc : Doc)
    (pv : PersistentVolume) (volumeID : String)
    (hparse : conv.FromUnstructured doc = .ok pv) (hcsi : pv.Spec.CSI = none) :
    SetVolumeID conv doc volumeID = (none, some (.text "spec.csi not found")) := by
  simp only [SetVolumeID, hparse, hcsi]

/-- On a document that parses with a CSI block of another driver, `SetVolumeID` returns the
error naming the driver and no document. -/
theorem SetVolumeID_of_other_driver {Doc : Type} (conv : UnstructuredConverter Doc) (doc : Doc)
    (pv : PersistentVolume) (csi : CSIPersistentVolumeSource) (volumeID : String)
    (hparse : conv.FromUnstructured doc = .ok pv) (hcsi : pv.Spec.CSI = some csi)
    (hdrv : csi.Driver ≠ sbsCSIDriver) :
    SetVolumeID conv doc volumeID =
      (none, some (.text ("unable to handle CSI driver: " ++ csi.Driver))) := by
  simp only [SetVolumeID, hparse, hcsi, hdrv, if_false]

/-- C11. With a converter that writes every volume, on a document that parses: `SetVolumeID`
returns an error and no document exactly when the document has no CSI block or its CSI driver
differs from `sbs-default.csi.scaleway.com`, and a document and no error otherwise; on a
driver that differs `SetVolumeID` fails with "unable to handle CSI driver" while `GetVolumeID`
on the same document returns the empty string without error. -/
theorem SetVolumeID_error_iff {Doc : Type} (conv : UnstructuredConverter Doc) (doc : Doc)
    (pv : PersistentVolume) (volumeID : String)
    (hwrite : ∀ v, ∃ d, conv.ToUnstructured v = .ok d)
    (hparse : conv.FromUnstructured doc = .ok pv) :
    ((∃ e, SetVolumeID conv doc volumeID = (none, some e)) ↔
      (pv.Spec.CSI = none ∨ ∃ csi, pv.Spec.CSI = some csi ∧ csi.Driver ≠ sbsCSIDriver)) ∧
    ((SetVolumeID conv doc volumeID).2 ≠ none ↔
      (pv.Spec.CSI = none ∨ ∃ csi, pv.Spec.CSI = some csi ∧ csi.Driver ≠ sbsCSIDriver)) ∧
    ((∃ csi, pv.Spec.CSI = some csi ∧ csi.Driver = sbsCSIDriver) →
      ∃ res, SetVolumeID conv doc volumeID = (some res, none)) ∧
    (∀ csi, pv.Spec.CSI = some csi → csi.Driver ≠ sbsCSIDriver →
      SetVolumeID conv doc volumeID =
        (none, some (.text ("unable to handle CSI driver: " ++ csi.Driver))) ∧
      GetVolumeID conv doc = ("", none)) := by
  have hgood : ∀ csi, pv.Spec.CSI = some csi → csi.Driver = sbsCSIDriver →
      ∃ res, SetVolumeID conv doc volumeID = (some res, none) := by
    intro csi hcsi hdrv
    obtain ⟨res, hres⟩ :=
      hwrite { Spec := { CSI := some { csi with VolumeHandle := volumeID } } }
    exact ⟨res, by rw [SetVolumeID_eq conv doc pv csi volumeID hparse hcsi hdrv, hres]⟩
  have hbad : (pv.Spec.CSI = none ∨ ∃ csi, pv.Spec.CSI = some csi ∧ csi.Driver ≠ sbsCSIDriver) →
      ∃ e, SetVolumeID conv doc volumeID = (none, some e) := by
    rintro (hcsi | ⟨csi, hcsi, hdrv⟩)
    · exact ⟨_, SetVolumeID_of_no_csi conv doc pv volumeID hparse hcsi⟩
    · exact ⟨_, SetVolumeID_of_other_driver conv doc pv csi volumeID hparse hcsi hdrv⟩
  have hcases : (pv.Spec.CSI = none ∨ ∃ csi, pv.Spec.CSI = some csi ∧ csi.Driver ≠ sbsCSIDriver) ∨
      ∃ csi, pv.Spec.CSI = some csi ∧ csi.Driver = sbsCSIDriver := by
    cases hcsi : pv.Spec.CSI with
    | none => exact Or.inl (Or.inl rfl)
    | some csi =>
      by_cases hdrv : csi.Driver = sbsCSIDriver
      · exact Or.inr ⟨csi, rfl, hdrv⟩
      · exact Or.inl (Or.inr ⟨csi, rfl, hdrv⟩)
  refine ⟨⟨fun ⟨e, he⟩ => ?_, hbad⟩, ⟨fun hne => ?_, fun hc => ?_⟩,
    fun ⟨csi, hcsi, hdrv⟩ => hgood csi hcsi hdrv, fun csi hcsi hdrv => ⟨?_, ?_⟩⟩
  · rcases hcases with h | ⟨csi, hcsi, hdrv⟩
    · exact h
    · obtain ⟨res, hres⟩ := hgood csi hcsi hdrv
      rw [hres] at he
      exact absurd (congrArg Prod.snd he) (by simp)
  · rcases hcases with h | ⟨csi, hcsi, hdrv⟩
    · exact h
    · obtain ⟨res, hres⟩ := hgood csi hcsi hdrv
      rw [hres] at hne
      exact absurd rfl hne
  · obtain ⟨e, he⟩ := hbad hc
    rw [he]
    simp
  · exact SetVolumeID_of_other_driver conv doc pv csi volumeID hparse hcsi hdrv
  · rw [GetVolumeID_eq conv doc pv hparse]
    simp only [hcsi, hdrv, if_false]

/-- A run of C11 on the document of `TestGetVolumeIDForCSI` with the driver
`unknown.drv.com`: `SetVolumeID` fails, `GetVolumeID` returns the empty string. -/
theorem SetVolumeID_error_iff_witness :
    documentConverter.FromUnstructured (testDocument "unknown.drv.com" "vol-0866e1c99bd130a2c") =
      .ok { Spec := { CSI := some { Driver := "unknown.drv.com",
                                    VolumeHandle := "vol-0866e1c99bd130a2c",
                                    FSType := "ext4" } } } ∧
    SetVolumeID documentConverter (testDocument "unknown.drv.com" "vol-0866e1c99bd130a2c")
      "vol-abcd" = (none, some (.text "unable to handle CSI driver: unknown.drv.com")) ∧
    GetVolumeID documentConverter (testDocument "unknown.drv.com" "vol-0866e1c99bd130a2c") =
      ("", none) :=
  ⟨rfl,
   (SetVolumeID_error_iff documentConverter
      (testDocument "unknown.drv.com" "vol-0866e1c99bd130a2c") _ "vol-abcd"
      documentConverter_writes rfl).2.2.2 _ rfl (by decide)⟩

/-! ## Endpoint resolution -/

/-- The map `validRegions` holds exactly the three regions. -/
theorem mapGetBool_validRegions (region : String) :
    mapGetBool validRegions region = true ↔ region ∈ ["fr-par", "nl-ams", "pl-waw"] := by
  unfold mapGetBool validRegions
  by_cases h1 : region = "fr-par"
  · subst h1; decide
  by_cases h2 : region = "nl-ams"
  · subst h2; decide
  by_cases h3 : region = "pl-waw"
  · subst h3; decide
  have e1 : (region == "fr-par") = false := beq_eq_false_iff_ne.mpr h1
  have e2 : (region == "nl-ams") = false := beq_eq_false_iff_ne.mpr h2
  have e3 : (region == "pl-waw") = false := beq_eq_false_iff_ne.mpr h3
  simp only [List.lookup, e1, e2, e3, Option.getD_none, Bool.false_eq_true, List.mem_cons,
    h1, h2, h3, List.mem_nil_iff, or_self]

/-- What `ResolveEndpoint` returns for the service `s3` in one of the three regions. -/
theorem ResolveEndpoint_s3 (env : Environ) (r : ScalewayEndpointResolver) (region : String)
    (hregion : region ∈ ["fr-par", "nl-ams", "pl-waw"]) :
    ResolveEndpoint env r "s3" region =
      ({ URL :=
           if Getenv env r.urlEnvVar ≠ "" then Getenv env r.urlEnvVar
           else "https://s3." ++ region ++ ".scw.cloud"
         SigningRegion := region }, none) := by
  have hv := (mapGetBool_validRegions region).mpr hregion
  simp only [ResolveEndpoint, hv, Bool.not_true, Bool.false_eq_true, if_false, if_true]

/-- C12. `ResolveEndpoint` succeeds exactly when the region is one of `fr-par`, `nl-ams`,
`pl-waw` and the service is `s3`; then the URL is the value of the resolver's override
variable when that is non-empty and `https://s3.<region>.scw.cloud` otherwise, and the
signing region is the given region; for every other service or region it returns an error
and the zero endpoint. -/
theorem ResolveEndpoint_succeeds_iff (env : Environ) (r : ScalewayEndpointResolver)
    (service region : String) :
    ((ResolveEndpoint env r service region).2 = none ↔
      (region ∈ ["fr-par", "nl-ams", "pl-waw"] ∧ service = "s3")) ∧
    (region ∈ ["fr-par", "nl-ams", "pl-waw"] → service = "s3" →
      ResolveEndpoint env r service region =
        ({ URL :=
             if Getenv env r.urlEnvVar ≠ "" then Getenv env r.urlEnvVar
             else "https://s3." ++ region ++ ".scw.cloud"
           SigningRegion := region }, none)) ∧
    (¬ (region ∈ ["fr-par", "nl-ams", "pl-waw"] ∧ service = "s3") →
      ∃ msg, ResolveEndpoint env r service region = (Endpoint.zero, some (.text msg))) := by
  have hgood : region ∈ ["fr-par", "nl-ams", "pl-waw"] → service = "s3" →
      ResolveEndpoint env r service region =
        ({ URL :=
             if Getenv env r.urlEnvVar ≠ "" then Getenv env r.urlEnvVar
             else "https://s3." ++ region ++ ".scw.cloud"
           SigningRegion := region }, none) := by
    intro hregion hservice
    rw [hservice]
    exact ResolveEndpoint_s3 env r region hregion
  have hbad : ¬ (region ∈ ["fr-par", "nl-ams", "pl-waw"] ∧ service = "s3") →
      ∃ msg, ResolveEndpoint env r service region = (Endpoint.zero, some (.text msg)) := by
    intro hn
    by_cases hregion : region ∈ ["fr-par", "nl-ams", "pl-waw"]
    · have hservice : ¬ service = "s3" := fun h => hn ⟨hregion, h⟩
      have hv := (mapGetBool_validRegions region).mpr hregion
      exact ⟨"service " ++ service ++ " is not supported",
        by simp only [ResolveEndpoint, hv, hservice, Bool.not_true, Bool.false_eq_true,
          if_false]⟩
    · have hv : mapGetBool validRegions region = false := by
        rw [← Bool.not_eq_true, mapGetBool_validRegions]
        exact hregion
      exact ⟨"region " ++ region ++ " is not supported for Scaleway",
        by simp only [ResolveEndpoint, hv, Bool.not_false, if_true]⟩
  refine ⟨⟨fun h => ?_, fun ⟨h1, h2⟩ => ?_⟩, hgood, hbad⟩
  · by_contra hn
    obtain ⟨msg, hmsg⟩ := hbad hn
    rw [hmsg] at h
    exact absurd h (by simp)
  · rw [hgood h1 h2]

/-- A run of C12: without override the region `fr-par` resolves to the default URL, with the
override `http://localhost:9000` the region `nl-ams` resolves to the override. -/
theorem ResolveEndpoint_succeeds_iff_witness :
    ResolveEndpoint emptyEnv scwResolver "s3" "fr-par" =
      ({ URL := "https://s3.fr-par.scw.cloud", SigningRegion := "fr-par" }, none) ∧
    ResolveEndpoint (endpointEnv "http://localhost:9000") scwResolver "s3" "nl-ams" =
      ({ URL := "http://localhost:9000", SigningRegion := "nl-ams" }, none) ∧
    ∃ msg, ResolveEndpoint emptyEnv scwResolver "ec2" "fr-par" =
      (Endpoint.zero, some (.text msg)) :=
  ⟨(ResolveEndpoint_succeeds_iff emptyEnv scwResolver "s3" "fr-par").2.1 (by decide) rfl,
   (ResolveEndpoint_succeeds_iff (endpointEnv "http://localhost:9000") scwResolver "s3"
      "nl-ams").2.1 (by decide) rfl,
   (ResolveEndpoint_succeeds_iff emptyEnv scwResolver "ec2" "fr-par").2.2 (by decide)⟩

/-! ## Volume information -/

/-- For a volume with a spec that carries an IOPS value, `GetVolumeInfo` returns the type and
that value. -/
theorem GetVolumeInfo_of_iops (api : BlockAPI) (volumeID volumeAZ : String) (v : Volume)
    (n : Nat) (h : api.GetVolume { VolumeID := volumeID } = .ok (some v))
    (hs : v.Specs = some { PerfIops := some n }) :
    GetVolumeInfo api volumeID volumeAZ = .ret (v.Type_, some (Int.ofNat n), none) := by
  have hd : describeVolume api volumeID = (v, none) := by simp [describeVolume, h]
  simp only [GetVolumeInfo, hd, hs]

/-- For a volume without spec, `GetVolumeInfo` returns the type and the IOPS value 0. -/
theorem GetVolumeInfo_of_no_specs (api : BlockAPI) (volumeID volumeAZ : String) (v : Volume)
    (h : api.GetVolume { VolumeID := volumeID } = .ok (some v)) (hs : v.Specs = none) :
    GetVolumeInfo api volumeID volumeAZ = .ret (v.Type_, some 0, none) := by
  have hd : describeVolume api volumeID = (v, none) := by simp [describeVolume, h]
  simp only [GetVolumeInfo, hd, hs]

/-- For a volume whose spec carries no IOPS value, `GetVolumeInfo` dereferences the nil
pointer. -/
theorem GetVolumeInfo_of_specs_without_iops (api : BlockAPI) (volumeID volumeAZ : String)
    (v : Volume) (h : api.GetVolume { VolumeID := volumeID } = .ok (some v))
    (hs : v.Specs = some { PerfIops := none }) :
    GetVolumeInfo api volumeID volumeAZ = .panic := by
  have hd : describeVolume api volumeID = (v, none) := by simp [describeVolume, h]
  simp only [GetVolumeInfo, hd, hs]

/-- C13. The remote `GetVolume` returns a volume whose spec is present and carries no IOPS
value: `GetVolumeInfo` panics instead of returning; with an IOPS value of 5000 it returns the
type and 5000, without spec the type and 0. -/
theorem GetVolumeInfo_faults_without_iops :
    (answeringAPI sampleSnapshot volumeWithoutIops).GetVolume { VolumeID := "vol-1" } =
      .ok (some volumeWithoutIops) ∧
    volumeWithoutIops.Specs = some { PerfIops := none } ∧
    GetVolumeInfo (answeringAPI sampleSnapshot volumeWithoutIops) "vol-1" "fr-par-1" = .panic ∧
    GetVolumeInfo (answeringAPI sampleSnapshot sampleVolume) "vol-1" "fr-par-1" =
      .ret ("sbs_5k", some 5000, none) ∧
    GetVolumeInfo (answeringAPI sampleSnapshot volumeWithoutSpecs) "vol-1" "fr-par-1" =
      .ret ("sbs_5k", some 0, none) :=
  ⟨rfl, rfl, GetVolumeInfo_of_specs_without_iops _ _ _ volumeWithoutIops rfl rfl,
   GetVolumeInfo_of_iops _ _ _ sampleVolume 5000 rfl rfl,
   GetVolumeInfo_of_no_specs _ _ _ volumeWithoutSpecs rfl rfl⟩

/-! ## The zone-to-region step -/

/-- The step leaves a profile unchanged when it has no zone, an empty zone, or a non-empty
region. -/
theorem zoneToRegion_unchanged (sdk : SDK) (p : Profile)
    (h : p.DefaultZone = none ∨ p.DefaultZone = some "" ∨
      ∃ r, p.DefaultRegion = some r ∧ r ≠ "") :
    zoneToRegion sdk p = .ret p := by
  unfold zoneToRegion
  rw [if_neg]
  rintro ⟨h1, h2, h3⟩
  rcases h with h | h | ⟨r, hr, hne⟩
  · exact h1 h
  · exact h2 h
  · rcases h3 with h3 | h3
    · rw [hr] at h3; exact absurd h3 (by simp)
    · rw [hr] at h3; exact hne (Option.some.inj h3)

/-- What the step does on a non-empty zone without region: it panics on a zone shorter than
two bytes, and otherwise sets the region to the zone cut two bytes short when that is a valid
region. -/
theorem zoneToRegion_of_zone (sdk : SDK) (p : Profile) (zone : String)
    (hz : p.DefaultZone = some zone) (hne : zone ≠ "")
    (hr : p.DefaultRegion = none ∨ p.DefaultRegion = some "") :
    zoneToRegion sdk p =
      if zone.utf8ByteSize < 2 then .panic
      else if sdk.IsRegion (String.mk (sliceTo zone.data (zone.utf8ByteSize - 2))) then
        .ret { p with DefaultRegion := some (String.mk (sliceTo zone.data (zone.utf8ByteSize - 2))) }
      else .ret p := by
  have hc : p.DefaultZone ≠ none ∧ p.DefaultZone ≠ some "" ∧
      (p.DefaultRegion = none ∨ p.DefaultRegion = some "") := by
    refine ⟨by rw [hz]; simp, ?_, hr⟩
    rw [hz]
    exact fun h => hne (Option.some.inj h)
  unfold zoneToRegion
  rw [if_pos hc]
  simp only [hz, Option.getD_some]

/-- The step panics exactly on a profile whose zone is non-empty and shorter than two bytes
and whose region is absent or empty. -/
theorem zoneToRegion_panic_iff (sdk : SDK) (p : Profile) :
    zoneToRegion sdk p = .panic ↔
      ∃ zone, p.DefaultZone = some zone ∧ zone ≠ "" ∧ zone.utf8ByteSize < 2 ∧
        (p.DefaultRegion = none ∨ p.DefaultRegion = some "") := by
  constructor
  · intro h
    cases hz : p.DefaultZone with
    | none => rw [zoneToRegion_unchanged sdk p (Or.inl hz)] at h; exact absurd h (by simp)
    | some zone =>
      by_cases hne : zone = ""
      · rw [zoneToRegion_unchanged sdk p (Or.inr (Or.inl (by rw [hz, hne])))] at h
        exact absurd h (by simp)
      · by_cases hr : p.DefaultRegion = none ∨ p.DefaultRegion = some ""
        · rw [zoneToRegion_of_zone sdk p zone hz hne hr] at h
          by_cases hlen : zone.utf8ByteSize < 2
          · exact ⟨zone, rfl, hne, hlen, hr⟩
          · rw [if_neg hlen] at h
            split at h <;> exact absurd h (by simp)
        · have hr2 : ∃ r, p.DefaultRegion = some r ∧ r ≠ "" := by
            cases hd : p.DefaultRegion with
            | none => exact absurd (Or.inl hd) hr
            | some r => exact ⟨r, rfl, fun h0 => hr (Or.inr (by rw [hd, h0]))⟩
          rw [zoneToRegion_unchanged sdk p (Or.inr (Or.inr hr2))] at h
          exact absurd h (by simp)
  · rintro ⟨zone, hz, hne, hlen, hr⟩
    rw [zoneToRegion_of_zone sdk p zone hz hne hr, if_pos hlen]

theorem utf8ByteSize_go_of_one_byte (cs : List Char) (h : ∀ c ∈ cs, c.utf8Size = 1) :
    String.utf8ByteSize.go cs = cs.length := by
  induction cs with
  | nil => rfl
  | cons c cs ih =>
    simp only [String.utf8ByteSize.go, List.length_cons]
    rw [ih (fun d hd => h d (List.mem_cons_of_mem _ hd)), h c (List.mem_cons_self _ _)]

/-- On a text of one-byte characters a cut after `n` bytes is a cut after `n` characters. -/
theorem sliceTo_of_one_byte (cs : List Char) (h : ∀ c ∈ cs, c.utf8Size = 1) :
    ∀ n : Nat, sliceTo cs n = cs.take n := by
  induction cs with
  | nil => intro n; simp [sliceTo]
  | cons c cs ih =>
    intro n
    have hc : c.utf8Size = 1 := h c (List.mem_cons_self _ _)
    cases n with
    | zero => simp [sliceTo]
    | succ k =>
      have hle : c.utf8Size ≤ k + 1 := by omega
      have hsub : k + 1 - c.utf8Size = k := by omega
      unfold sliceTo
      rw [if_neg (Nat.succ_ne_zero k), if_pos hle, hsub,
        ih (fun d hd => h d (List.mem_cons_of_mem _ hd)), List.take_succ_cons]

/-- On a zone of at least two one-byte characters (an ASCII zone) and without region, the step
returns: it sets the region to the zone with its last two characters removed when that is a
valid region, and leaves the profile as it is otherwise. -/
theorem zoneToRegion_of_one_byte_zone (sdk : SDK) (p : Profile) (zone : String)
    (hz : p.DefaultZone = some zone) (hascii : ∀ c ∈ zone.data, c.utf8Size = 1)
    (hlen : 2 ≤ zone.data.length)
    (hr : p.DefaultRegion = none ∨ p.DefaultRegion = some "") :
    zoneToRegion sdk p =
      if sdk.IsRegion (dropLastTwo zone) then
        .ret { p with DefaultRegion := some (dropLastTwo zone) }
      else .ret p := by
  have hsize : zone.utf8ByteSize = zone.data.length := by
    obtain ⟨cs⟩ := zone
    exact utf8ByteSize_go_of_one_byte cs hascii
  have hne : zone ≠ "" := by
    intro h0
    rw [h0] at hlen
    exact absurd hlen (by decide)
  have hcut : String.mk (sliceTo zone.data (zone.utf8ByteSize - 2)) = dropLastTwo zone := by
    rw [hsize, sliceTo_of_one_byte zone.data hascii]
    rfl
  rw [zoneToRegion_of_zone sdk p zone hz hne hr, hcut, if_neg (by omega)]

/-- C14. On the profile with the one-letter zone `x` and no region the zone-to-region step
panics, whatever the validators are; on the zone `fr-par-1` it sets the region `fr-par`, and
on the zone `de-ber-1`, whose cut is no region of the reference instance, it leaves the
region unset. -/
theorem zoneToRegion_faults_on_short_zone :
    (profileWithZone "x").DefaultZone = some "x" ∧
    (profileWithZone "x").DefaultRegion = none ∧
    (∀ sdk : SDK, zoneToRegion sdk (profileWithZone "x") = .panic) ∧
    zoneToRegion completeSDK (profileWithZone "fr-par-1") =
      .ret { profileWithZone "fr-par-1" with DefaultRegion := some "fr-par" } ∧
    zoneToRegion completeSDK (profileWithZone "de-ber-1") = .ret (profileWithZone "de-ber-1") :=
  ⟨rfl, rfl,
   fun sdk => (zoneToRegion_panic_iff sdk (profileWithZone "x")).mpr
     ⟨"x", rfl, by decide, by decide, Or.inl rfl⟩,
   by decide, by decide⟩

end VeleroScaleway
